import Mathlib

/-!
Shallow embedding of the monitor-operator reconciliation engine
(`internal/controller/monitorstack_controller.go`, `internal/controller/helpers.go`
and the `api/v1` MonitorStack schema) together with proofs about the claims
of its specification.

Modelling conventions:
* Go `int32` fields are modelled as `Int` (signed, so negative inputs are
  representable exactly as in the source type).
* Go `map[string]string` is modelled as an association list
  `List (String × String)`; the Go map-merge loop
  `for k, v := range m { dst[k] = v }` is modelled as list append with the
  convention that a later entry overrides an earlier one.
* `metav1.Time` timestamps are modelled as a `Nat` tick supplied by the caller
  (`metav1.Now()` becomes the `now` parameter of the engine functions).
* The Kubernetes API server is modelled as a `ClusterState`: one association
  list per managed resource kind, keyed by object name (the controller always
  works in the stack's own namespace, so a single namespace is assumed).
  Transient API failures are injected through a `getFaults` name list: `Get` on
  a faulted name returns an API error, mirroring a network or server failure;
  `Create`, `Update` and `Delete` requests succeed, which is sufficient for the
  claims under study.  `controllerutil.SetControllerReference` cannot fail for
  the fixed scheme and is modelled as a no-op (ownership links live outside the
  engine's observable state).
* Error strings built by the Go code from literals are reproduced verbatim;
  the text of errors originating in the API client itself is abstracted to
  fixed messages, since no claim depends on that text.
-/

namespace MonitorOperator

/-- Association-list lookup (first binding wins), modelling a read from the API
server's object store keyed by name. -/
def alookup {α : Type} (l : List (String × α)) (k : String) : Option α :=
  match l with
  | [] => none
  | (k', v) :: rest => if k' = k then some v else alookup rest k

/-- `Create`: add a binding (the engine only creates after `Get` reported
not-found, so the key is absent). -/
def ainsert {α : Type} (l : List (String × α)) (k : String) (v : α) : List (String × α) :=
  (k, v) :: l

/-- `Update`: replace the value stored under a key (names are unique in the
store, so the first binding is the object), leaving all other bindings
untouched. -/
def aset {α : Type} : List (String × α) → String → α → List (String × α)
  | [], _, _ => []
  | p :: rest, k, v => if p.1 = k then (k, v) :: rest else p :: aset rest k v

/-- `Delete`: remove the binding of a key. -/
def aerase {α : Type} (l : List (String × α)) (k : String) : List (String × α) :=
  l.filter (fun p => decide (p.1 ≠ k))

/-- Character-wise head mismatch of two lists: `true` when the two lists
differ at some position that both of them reach.  Applied to reversed string
data it witnesses that two suffixes are incomparable, which drives the
name-disjointness proofs. -/
def mism : List Char → List Char → Bool
  | x :: xs, y :: ys => x ≠ y || mism xs ys
  | _, _ => false

/-! ### The `api/v1` data model (`monitorstack_types.go`) -/

/-- `ResourceList`: CPU and memory quantity strings. -/
@[ext] structure ResourceList where
  CPU : String
  Memory : String
  deriving DecidableEq

/-- `ResourceRequirements`: resource limits and requests. -/
@[ext] structure ResourceRequirements where
  Limits : ResourceList
  Requests : ResourceList
  deriving DecidableEq

/-- `StorageSpec`: persistent storage configuration. -/
@[ext] structure StorageSpec where
  Size : String
  StorageClass : String
  deriving DecidableEq

/-- `ServiceSpec` (the Go field `Type` is rendered `Type'` because `Type` is a
Lean keyword). -/
@[ext] structure ServiceSpec where
  Type' : String
  Port : Int
  NodePort : Int
  Labels : List (String × String)
  deriving DecidableEq

/-- `DatasourceSpec`: one Grafana datasource entry. -/
@[ext] structure DatasourceSpec where
  Name : String
  Type' : String
  URL : String
  deriving DecidableEq

/-- `DashboardSpec`: one Grafana dashboard entry (never read by the
controller, carried for schema fidelity). -/
@[ext] structure DashboardSpec where
  Name : String
  JSON : String
  URL : String
  deriving DecidableEq

/-- `PrometheusSpec`. -/
@[ext] structure PrometheusSpec where
  Enabled : Bool
  Image : String
  Tag : String
  Resources : ResourceRequirements
  Storage : StorageSpec
  Service : ServiceSpec
  Config : String
  Retention : String
  deriving DecidableEq

/-- `GrafanaSpec`. -/
@[ext] structure GrafanaSpec where
  Enabled : Bool
  Image : String
  Tag : String
  Resources : ResourceRequirements
  Service : ServiceSpec
  AdminPassword : String
  Datasources : List DatasourceSpec
  Dashboards : List DashboardSpec
  deriving DecidableEq

/-- `MonitorStackSpec`. -/
@[ext] structure MonitorStackSpec where
  Prometheus : PrometheusSpec
  Grafana : GrafanaSpec
  Namespace : String
  Labels : List (String × String)
  deriving DecidableEq

/-- `ComponentStatus`. -/
@[ext] structure ComponentStatus where
  Ready : Bool
  Replicas : Int
  Message : String
  Endpoint : String
  deriving DecidableEq

/-- `MonitorStackStatus` (the `Conditions` list is never read or written by the
controller and is omitted). -/
@[ext] structure MonitorStackStatus where
  Phase : String
  Message : String
  PrometheusStatus : ComponentStatus
  GrafanaStatus : ComponentStatus
  LastUpdated : Nat
  deriving DecidableEq

/-- `MonitorStack`: object metadata (name, namespace, deletion timestamp,
finalizers) plus spec and status. -/
@[ext] structure MonitorStack where
  Name : String
  Namespace : String
  DeletionTimestamp : Option Nat
  Finalizers : List String
  Spec : MonitorStackSpec
  Status : MonitorStackStatus
  deriving DecidableEq

/-! ### Naming helpers (`helpers.go`) -/

/-- `getPrometheusName`: `fmt.Sprintf("%s-prometheus", monitorStack.Name)`. -/
def getPrometheusName (ms : MonitorStack) : String :=
  ms.Name ++ "-prometheus"

/-- `getPrometheusServiceName`. -/
def getPrometheusServiceName (ms : MonitorStack) : String :=
  ms.Name ++ "-prometheus"

/-- `getPrometheusConfigMapName`. -/
def getPrometheusConfigMapName (ms : MonitorStack) : String :=
  ms.Name ++ "-prometheus-config"

/-- `getPrometheusPVCName`. -/
def getPrometheusPVCName (ms : MonitorStack) : String :=
  ms.Name ++ "-prometheus-data"

/-- `getGrafanaName`. -/
def getGrafanaName (ms : MonitorStack) : String :=
  ms.Name ++ "-grafana"

/-- `getGrafanaServiceName`. -/
def getGrafanaServiceName (ms : MonitorStack) : String :=
  ms.Name ++ "-grafana"

/-- `getGrafanaDatasourcesConfigMapName`. -/
def getGrafanaDatasourcesConfigMapName (ms : MonitorStack) : String :=
  ms.Name ++ "-grafana-datasources"

/-- `getLabels`: the fixed identity label set merged with the user labels
(user labels appended, overriding by the later-wins convention). -/
def getLabels (ms : MonitorStack) (component : String) : List (String × String) :=
  [("app.kubernetes.io/name", "monitor-operator"),
   ("app.kubernetes.io/instance", ms.Name),
   ("app.kubernetes.io/component", component),
   ("app.kubernetes.io/managed-by", "monitor-operator"),
   ("app.kubernetes.io/part-of", "monitoring-stack")] ++ ms.Spec.Labels

/-- The default Prometheus configuration returned by `getPrometheusConfig`
when the user supplies none (the Go raw-string literal, lines joined by
newlines). -/
def defaultPrometheusConfig : String :=
  "# Prometheus默认配置\n" ++
  "# 全局配置\n" ++
  "global:\n" ++
  "  scrape_interval: 15s        # 抓取间隔\n" ++
  "  evaluation_interval: 15s    # 规则评估间隔\n" ++
  "\n" ++
  "# 抓取配置\n" ++
  "scrape_configs:\n" ++
  "  # Prometheus自监控\n" ++
  "  - job_name: 'prometheus'\n" ++
  "    static_configs:\n" ++
  "      - targets: ['localhost:9090']\n" ++
  "\n" ++
  "  # Kubernetes Pod监控\n" ++
  "  # 通过注解prometheus.io/scrape=true来发现需要监控的Pod\n" ++
  "  - job_name: 'kubernetes-pods'\n" ++
  "    kubernetes_sd_configs:\n" ++
  "      - role: pod\n" ++
  "    relabel_configs:\n" ++
  "      # 只监控有prometheus.io/scrape=true注解的Pod\n" ++
  "      - source_labels: [__meta_kubernetes_pod_annotation_prometheus_io_scrape]\n" ++
  "        action: keep\n" ++
  "        regex: true\n" ++
  "      # 使用prometheus.io/path注解指定的路径，默认为/metrics\n" ++
  "      - source_labels: [__meta_kubernetes_pod_annotation_prometheus_io_path]\n" ++
  "        action: replace\n" ++
  "        target_label: __metrics_path__\n" ++
  "        regex: (.+)\n" ++
  "      # 使用prometheus.io/port注解指定的端口\n" ++
  "      - source_labels: [__address__, __meta_kubernetes_pod_annotation_prometheus_io_port]\n" ++
  "        action: replace\n" ++
  "        regex: ([^:]+)(?::\\d+)?;(\\d+)\n" ++
  "        replacement: $1:$2\n" ++
  "        target_label: __address__\n" ++
  "      # 添加Pod名称标签\n" ++
  "      - source_labels: [__meta_kubernetes_pod_name]\n" ++
  "        action: replace\n" ++
  "        target_label: kubernetes_pod_name\n" ++
  "      # 添加命名空间标签\n" ++
  "      - source_labels: [__meta_kubernetes_namespace]\n" ++
  "        action: replace\n" ++
  "        target_label: kubernetes_namespace\n" ++
  "\n" ++
  "  # Kubernetes Service监控\n" ++
  "  - job_name: 'kubernetes-services'\n" ++
  "    kubernetes_sd_configs:\n" ++
  "      - role: service\n" ++
  "    relabel_configs:\n" ++
  "      # 只监控有prometheus.io/scrape=true注解的Service\n" ++
  "      - source_labels: [__meta_kubernetes_service_annotation_prometheus_io_scrape]\n" ++
  "        action: keep\n" ++
  "        regex: true\n" ++
  "      # 使用prometheus.io/path注解指定的路径\n" ++
  "      - source_labels: [__meta_kubernetes_service_annotation_prometheus_io_path]\n" ++
  "        action: replace\n" ++
  "        target_label: __metrics_path__\n" ++
  "        regex: (.+)\n" ++
  "      # 使用prometheus.io/port注解指定的端口\n" ++
  "      - source_labels: [__address__, __meta_kubernetes_service_annotation_prometheus_io_port]\n" ++
  "        action: replace\n" ++
  "        regex: ([^:]+)(?::\\d+)?;(\\d+)\n" ++
  "        replacement: $1:$2\n" ++
  "        target_label: __address__\n" ++
  "      # 添加Service名称标签\n" ++
  "      - source_labels: [__meta_kubernetes_service_name]\n" ++
  "        action: replace\n" ++
  "        target_label: kubernetes_service_name\n" ++
  "      # 添加命名空间标签\n" ++
  "      - source_labels: [__meta_kubernetes_namespace]\n" ++
  "        action: replace\n" ++
  "        target_label: kubernetes_namespace\n" ++
  "\n" ++
  "  # Kubernetes Node监控\n" ++
  "  - job_name: 'kubernetes-nodes'\n" ++
  "    kubernetes_sd_configs:\n" ++
  "      - role: node\n" ++
  "    relabel_configs:\n" ++
  "      # 添加Node名称标签\n" ++
  "      - source_labels: [__meta_kubernetes_node_name]\n" ++
  "        action: replace\n" ++
  "        target_label: kubernetes_node_name\n" ++
  "\n" ++
  "# 规则文件配置（可选）\n" ++
  "rule_files:\n" ++
  "  # - \"first_rules.yml\"\n" ++
  "  # - \"second_rules.yml\"\n" ++
  "\n" ++
  "# 告警管理器配置（可选）\n" ++
  "# alerting:\n" ++
  "#   alertmanagers:\n" ++
  "#     - static_configs:\n" ++
  "#         - targets:\n" ++
  "#           # - alertmanager:9093"

/-- `getPrometheusConfig`: the user-supplied raw config verbatim if non-empty,
else the default template. -/
def getPrometheusConfig (ms : MonitorStack) : String :=
  if ms.Spec.Prometheus.Config ≠ "" then ms.Spec.Prometheus.Config
  else defaultPrometheusConfig

/-! ### Validation (`helpers.go`, `validateMonitorStack` and friends).
The Go functions return `error`; they are modelled as `Option String`
(`none` = nil error). -/

/-- `validatePrometheusConfig`. -/
def validatePrometheusConfig (ms : MonitorStack) : Option String :=
  let prometheus := ms.Spec.Prometheus
  if prometheus.Service.Port < 1 ∨ prometheus.Service.Port > 65535 then
    some ("service port must be between 1 and 65535, got " ++ toString prometheus.Service.Port)
  else if prometheus.Service.Type' = "NodePort" ∧ prometheus.Service.NodePort > 0 ∧
      (prometheus.Service.NodePort < 30000 ∨ prometheus.Service.NodePort > 32767) then
    some ("nodePort must be between 30000 and 32767, got " ++ toString prometheus.Service.NodePort)
  else if prometheus.Image = "" then
    some "prometheus image cannot be empty"
  else if prometheus.Tag = "" then
    some "prometheus tag cannot be empty"
  else
    none

/-- The datasource loop of `validateGrafanaConfig`, carrying the index used in
the error message. -/
def findDatasourceError : Nat → List DatasourceSpec → Option String
  | _, [] => none
  | i, ds :: rest =>
    if ds.Name = "" then some ("datasource[" ++ toString i ++ "] name cannot be empty")
    else if ds.Type' = "" then some ("datasource[" ++ toString i ++ "] type cannot be empty")
    else if ds.URL = "" then some ("datasource[" ++ toString i ++ "] URL cannot be empty")
    else findDatasourceError (i + 1) rest

/-- `validateGrafanaConfig`. -/
def validateGrafanaConfig (ms : MonitorStack) : Option String :=
  let grafana := ms.Spec.Grafana
  if grafana.Service.Port < 1 ∨ grafana.Service.Port > 65535 then
    some ("service port must be between 1 and 65535, got " ++ toString grafana.Service.Port)
  else if grafana.Service.Type' = "NodePort" ∧ grafana.Service.NodePort > 0 ∧
      (grafana.Service.NodePort < 30000 ∨ grafana.Service.NodePort > 32767) then
    some ("nodePort must be between 30000 and 32767, got " ++ toString grafana.Service.NodePort)
  else if grafana.Image = "" then
    some "grafana image cannot be empty"
  else if grafana.Tag = "" then
    some "grafana tag cannot be empty"
  else if grafana.AdminPassword = "" then
    some "grafana admin password cannot be empty"
  else
    findDatasourceError 0 grafana.Datasources

/-- `validateMonitorStack`: at least one component enabled, then the enabled
components' checks in order, with the Go `fmt.Errorf` wrapping. -/
def validateMonitorStack (ms : MonitorStack) : Option String :=
  if ¬ ms.Spec.Prometheus.Enabled ∧ ¬ ms.Spec.Grafana.Enabled then
    some "at least one component (Prometheus or Grafana) must be enabled"
  else
    match (if ms.Spec.Prometheus.Enabled then validatePrometheusConfig ms else none) with
    | some e => some ("prometheus configuration error: " ++ e)
    | none =>
      match (if ms.Spec.Grafana.Enabled then validateGrafanaConfig ms else none) with
      | some e => some ("grafana configuration error: " ++ e)
      | none => none

/-! ### Defaulting (`helpers.go`, `setDefaultValues` and friends).
The Go functions mutate the spec in place; they are modelled as pure
functions.  Each Go `if field == zero { field = default }` tests exactly the
field it assigns, so the sequential assignments equal the simultaneous record
update below. -/

/-- `setPrometheusDefaults`. -/
def setPrometheusDefaults (prometheus : PrometheusSpec) : PrometheusSpec :=
  { prometheus with
    Image := if prometheus.Image = "" then "prom/prometheus" else prometheus.Image
    Tag := if prometheus.Tag = "" then "latest" else prometheus.Tag
    Service := { prometheus.Service with
      Port := if prometheus.Service.Port = 0 then 9090 else prometheus.Service.Port
      Type' := if prometheus.Service.Type' = "" then "ClusterIP" else prometheus.Service.Type' }
    Retention := if prometheus.Retention = "" then "15d" else prometheus.Retention
    Resources := { prometheus.Resources with
      Requests := { prometheus.Resources.Requests with
        CPU := if prometheus.Resources.Requests.CPU = "" then "100m"
               else prometheus.Resources.Requests.CPU
        Memory := if prometheus.Resources.Requests.Memory = "" then "256Mi"
                  else prometheus.Resources.Requests.Memory } } }

/-- `setGrafanaDefaults`. -/
def setGrafanaDefaults (grafana : GrafanaSpec) : GrafanaSpec :=
  { grafana with
    Image := if grafana.Image = "" then "grafana/grafana" else grafana.Image
    Tag := if grafana.Tag = "" then "latest" else grafana.Tag
    Service := { grafana.Service with
      Port := if grafana.Service.Port = 0 then 3000 else grafana.Service.Port
      Type' := if grafana.Service.Type' = "" then "ClusterIP" else grafana.Service.Type' }
    AdminPassword := if grafana.AdminPassword = "" then "admin" else grafana.AdminPassword
    Resources := { grafana.Resources with
      Requests := { grafana.Resources.Requests with
        CPU := if grafana.Resources.Requests.CPU = "" then "100m"
               else grafana.Resources.Requests.CPU
        Memory := if grafana.Resources.Requests.Memory = "" then "128Mi"
                  else grafana.Resources.Requests.Memory } } }

/-- `setDefaultValues`: defaults are applied only to enabled components. -/
def setDefaultValues (ms : MonitorStack) : MonitorStack :=
  let s1 :=
    if ms.Spec.Prometheus.Enabled then
      { ms with Spec := { ms.Spec with Prometheus := setPrometheusDefaults ms.Spec.Prometheus } }
    else ms
  if s1.Spec.Grafana.Enabled then
    { s1 with Spec := { s1.Spec with Grafana := setGrafanaDefaults s1.Spec.Grafana } }
  else s1

/-! ### Resource builders (the second controller file: `build*` functions).
The builders are pure; the Kubernetes object shapes are captured by content
records holding every field the builders set. -/

/-- One `corev1.ContainerPort`. -/
structure ContainerPortSpec where
  Name : String
  Port : Int
  Protocol : String
  deriving DecidableEq

/-- One `corev1.Probe` with an HTTPGet handler. -/
structure ProbeSpec where
  Path : String
  Port : Int
  InitialDelaySeconds : Int
  PeriodSeconds : Int
  TimeoutSeconds : Int
  FailureThreshold : Int
  deriving DecidableEq

/-- `corev1.PodSecurityContext` as set by the builders. -/
structure PodSecurityContext where
  RunAsNonRoot : Bool
  RunAsUser : Int
  FSGroup : Int
  deriving DecidableEq

/-- A volume's source: config artifact, durable-storage claim or node-local
scratch space. -/
inductive VolumeSource
  | configMap (name : String)
  | persistentVolumeClaim (claimName : String)
  | emptyDir
  deriving DecidableEq

/-- One `corev1.Volume`. -/
structure VolumeDef where
  Name : String
  Source : VolumeSource
  deriving DecidableEq

/-- One `corev1.VolumeMount`. -/
structure VolumeMountDef where
  Name : String
  MountPath : String
  ReadOnly : Bool
  deriving DecidableEq

/-- `corev1.ResourceRequirements` as produced by `buildResourceRequirements`;
`none` models a nil resource list. -/
structure BuiltResourceRequirements where
  Requests : Option (List (String × String))
  Limits : Option (List (String × String))
  deriving DecidableEq

/-- `buildResourceRequirements`: a list is allocated only when at least one of
its two quantities is set, and each quantity is entered only when non-empty. -/
def buildResourceRequirements (resources : ResourceRequirements) : BuiltResourceRequirements :=
  { Requests :=
      if resources.Requests.CPU ≠ "" ∨ resources.Requests.Memory ≠ "" then
        some ((if resources.Requests.CPU ≠ "" then [("cpu", resources.Requests.CPU)] else []) ++
              (if resources.Requests.Memory ≠ "" then [("memory", resources.Requests.Memory)] else []))
      else none
    Limits :=
      if resources.Limits.CPU ≠ "" ∨ resources.Limits.Memory ≠ "" then
        some ((if resources.Limits.CPU ≠ "" then [("cpu", resources.Limits.CPU)] else []) ++
              (if resources.Limits.Memory ≠ "" then [("memory", resources.Limits.Memory)] else []))
      else none }

/-- `buildPrometheusArgs`. -/
def buildPrometheusArgs (ms : MonitorStack) : List String :=
  ["--config.file=/etc/prometheus/prometheus.yml",
   "--storage.tsdb.path=/prometheus",
   "--web.console.libraries=/etc/prometheus/console_libraries",
   "--web.console.templates=/etc/prometheus/consoles",
   "--web.enable-lifecycle",
   "--web.enable-admin-api"] ++
  (if ms.Spec.Prometheus.Retention ≠ "" then
    ["--storage.tsdb.retention.time=" ++ ms.Spec.Prometheus.Retention]
  else [])

/-- `buildGrafanaEnv`. -/
def buildGrafanaEnv (ms : MonitorStack) : List (String × String) :=
  [("GF_SECURITY_ADMIN_PASSWORD", ms.Spec.Grafana.AdminPassword),
   ("GF_USERS_ALLOW_SIGN_UP", "false"),
   ("GF_PATHS_DATA", "/var/lib/grafana"),
   ("GF_PATHS_LOGS", "/var/log/grafana"),
   ("GF_PATHS_PLUGINS", "/var/lib/grafana/plugins"),
   ("GF_PATHS_PROVISIONING", "/etc/grafana/provisioning")]

/-- The datasource-rendering loop of `buildGrafanaDatasourcesConfig`: the
entry of index 0 whose type is "prometheus" is marked default. -/
def datasourceEntries : Nat → List DatasourceSpec → String
  | _, [] => ""
  | i, ds :: rest =>
    "\n  - name: " ++ ds.Name ++
    "\n    type: " ++ ds.Type' ++
    "\n    url: " ++ ds.URL ++
    "\n    access: proxy" ++
    "\n    isDefault: " ++ (if i = 0 ∧ ds.Type' = "prometheus" then "true" else "false") ++
    datasourceEntries (i + 1) rest

/-- `buildGrafanaDatasourcesConfig`. -/
def buildGrafanaDatasourcesConfig (ms : MonitorStack) : String :=
  "apiVersion: 1\ndatasources:" ++ datasourceEntries 0 ms.Spec.Grafana.Datasources

/-- The engine-owned part of an `appsv1.Deployment` (everything the builders
set; server-managed status lives in `DeploymentObj`). -/
structure DeploymentContent where
  Name : String
  Labels : List (String × String)
  Replicas : Int
  SelectorMatchLabels : List (String × String)
  TemplateLabels : List (String × String)
  SecurityContext : PodSecurityContext
  ContainerName : String
  Image : String
  Ports : List ContainerPortSpec
  Args : List String
  Env : List (String × String)
  VolumeMounts : List VolumeMountDef
  Resources : BuiltResourceRequirements
  LivenessProbe : ProbeSpec
  ReadinessProbe : ProbeSpec
  Volumes : List VolumeDef
  deriving DecidableEq

/-- `addPrometheusDataVolume`: appends the data mount and volume, durable if a
storage size was configured, node-local scratch otherwise. -/
def addPrometheusDataVolume (deployment : DeploymentContent) (ms : MonitorStack) :
    DeploymentContent :=
  let dataVolume : VolumeDef :=
    if ms.Spec.Prometheus.Storage.Size ≠ "" then
      { Name := "data", Source := .persistentVolumeClaim (getPrometheusPVCName ms) }
    else
      { Name := "data", Source := .emptyDir }
  { deployment with
    VolumeMounts := deployment.VolumeMounts ++ [{ Name := "data", MountPath := "/prometheus", ReadOnly := false }]
    Volumes := deployment.Volumes ++ [dataVolume] }

/-- `buildPrometheusDeployment`. -/
def buildPrometheusDeployment (ms : MonitorStack) : DeploymentContent :=
  let labels := getLabels ms "prometheus"
  addPrometheusDataVolume
    { Name := getPrometheusName ms
      Labels := labels
      Replicas := 1
      SelectorMatchLabels := labels
      TemplateLabels := labels
      SecurityContext := { RunAsNonRoot := true, RunAsUser := 65534, FSGroup := 65534 }
      ContainerName := "prometheus"
      Image := ms.Spec.Prometheus.Image ++ ":" ++ ms.Spec.Prometheus.Tag
      Ports := [{ Name := "web", Port := 9090, Protocol := "TCP" }]
      Args := buildPrometheusArgs ms
      Env := []
      VolumeMounts := [{ Name := "config", MountPath := "/etc/prometheus", ReadOnly := true }]
      Resources := buildResourceRequirements ms.Spec.Prometheus.Resources
      LivenessProbe := { Path := "/-/healthy", Port := 9090, InitialDelaySeconds := 30,
                         PeriodSeconds := 10, TimeoutSeconds := 5, FailureThreshold := 3 }
      ReadinessProbe := { Path := "/-/ready", Port := 9090, InitialDelaySeconds := 5,
                          PeriodSeconds := 5, TimeoutSeconds := 3, FailureThreshold := 3 }
      Volumes := [{ Name := "config", Source := .configMap (getPrometheusConfigMapName ms) }] }
    ms

/-- `addGrafanaDatasourceVolume`. -/
def addGrafanaDatasourceVolume (deployment : DeploymentContent) (ms : MonitorStack) :
    DeploymentContent :=
  { deployment with
    VolumeMounts := deployment.VolumeMounts ++
      [{ Name := "datasources", MountPath := "/etc/grafana/provisioning/datasources", ReadOnly := true }]
    Volumes := deployment.Volumes ++
      [{ Name := "datasources", Source := .configMap (getGrafanaDatasourcesConfigMapName ms) }] }

/-- `buildGrafanaDeployment`. -/
def buildGrafanaDeployment (ms : MonitorStack) : DeploymentContent :=
  let labels := getLabels ms "grafana"
  let base : DeploymentContent :=
    { Name := getGrafanaName ms
      Labels := labels
      Replicas := 1
      SelectorMatchLabels := labels
      TemplateLabels := labels
      SecurityContext := { RunAsNonRoot := true, RunAsUser := 472, FSGroup := 472 }
      ContainerName := "grafana"
      Image := ms.Spec.Grafana.Image ++ ":" ++ ms.Spec.Grafana.Tag
      Ports := [{ Name := "grafana", Port := 3000, Protocol := "TCP" }]
      Args := []
      Env := buildGrafanaEnv ms
      VolumeMounts := [{ Name := "grafana-storage", MountPath := "/var/lib/grafana", ReadOnly := false }]
      Resources := buildResourceRequirements ms.Spec.Grafana.Resources
      LivenessProbe := { Path := "/api/health", Port := 3000, InitialDelaySeconds := 30,
                         PeriodSeconds := 10, TimeoutSeconds := 5, FailureThreshold := 3 }
      ReadinessProbe := { Path := "/api/health", Port := 3000, InitialDelaySeconds := 5,
                          PeriodSeconds := 5, TimeoutSeconds := 3, FailureThreshold := 3 }
      Volumes := [{ Name := "grafana-storage", Source := .emptyDir }] }
  if ms.Spec.Grafana.Datasources ≠ [] then addGrafanaDatasourceVolume base ms else base

/-- One `corev1.ServicePort` (`NodePort` zero when not set). -/
structure ServicePortSpec where
  Name : String
  Port : Int
  TargetPort : Int
  NodePort : Int
  Protocol : String
  deriving DecidableEq

/-- The engine-owned part of a `corev1.Service`. -/
structure ServiceContent where
  Name : String
  Labels : List (String × String)
  Type' : String
  Selector : List (String × String)
  Ports : List ServicePortSpec
  deriving DecidableEq

/-- `buildPrometheusService`: the node port is forwarded only for a NodePort
service with a positive configured node port; user service labels are merged
in last (later-wins). -/
def buildPrometheusService (ms : MonitorStack) : ServiceContent :=
  let labels := getLabels ms "prometheus"
  { Name := getPrometheusServiceName ms
    Labels := labels ++ ms.Spec.Prometheus.Service.Labels
    Type' := ms.Spec.Prometheus.Service.Type'
    Selector := labels
    Ports := [{ Name := "web"
                Port := ms.Spec.Prometheus.Service.Port
                TargetPort := 9090
                NodePort :=
                  if ms.Spec.Prometheus.Service.Type' = "NodePort" ∧
                      ms.Spec.Prometheus.Service.NodePort > 0 then
                    ms.Spec.Prometheus.Service.NodePort
                  else 0
                Protocol := "TCP" }] }

/-- `buildGrafanaService`. -/
def buildGrafanaService (ms : MonitorStack) : ServiceContent :=
  let labels := getLabels ms "grafana"
  { Name := getGrafanaServiceName ms
    Labels := labels ++ ms.Spec.Grafana.Service.Labels
    Type' := ms.Spec.Grafana.Service.Type'
    Selector := labels
    Ports := [{ Name := "grafana"
                Port := ms.Spec.Grafana.Service.Port
                TargetPort := 3000
                NodePort :=
                  if ms.Spec.Grafana.Service.Type' = "NodePort" ∧
                      ms.Spec.Grafana.Service.NodePort > 0 then
                    ms.Spec.Grafana.Service.NodePort
                  else 0
                Protocol := "TCP" }] }

/-! ### The cluster model and the convergence engine
(`monitorstack_controller.go`). -/

/-- A stored `appsv1.Deployment`: the engine-owned content plus the
server-managed status counters (`Status.ReadyReplicas`, `Status.Replicas`),
which updates leave untouched. -/
structure DeploymentObj where
  content : DeploymentContent
  ReadyReplicas : Int
  StatusReplicas : Int
  deriving DecidableEq

/-- A stored `corev1.Service`. -/
structure ServiceObj where
  content : ServiceContent
  deriving DecidableEq

/-- A stored `corev1.ConfigMap`: labels and data (the update path overwrites
only `Data`). -/
structure ConfigMapObj where
  Labels : List (String × String)
  Data : List (String × String)
  deriving DecidableEq

/-- A stored `corev1.PersistentVolumeClaim`. -/
structure PVCObj where
  Labels : List (String × String)
  AccessModes : List String
  StorageRequest : String
  StorageClassName : Option String
  deriving DecidableEq

/-- The API server's object store: one name-keyed table per managed child
kind, plus the set of names whose `Get` currently fails with a transient API
error (environment fault injection). -/
structure ClusterState where
  deployments : List (String × DeploymentObj)
  services : List (String × ServiceObj)
  configmaps : List (String × ConfigMapObj)
  pvcs : List (String × PVCObj)
  getFaults : List String
  deriving DecidableEq

/-- Outcome of a `Get` call. -/
inductive GetRes (α : Type)
  | found (a : α)
  | notFound
  | apiError
  deriving DecidableEq

/-- `r.Get` against one table: a faulted name yields a transient API error,
otherwise found/not-found by lookup. -/
def sget {α : Type} (faults : List String) (l : List (String × α)) (k : String) : GetRes α :=
  if k ∈ faults then .apiError
  else
    match alookup l k with
    | some v => .found v
    | none => .notFound

/-- Result of one engine step against the store: the state reached so far and
either success (`ok`, Go `nil` error) or failure with a message. -/
inductive Res
  | ok (st : ClusterState)
  | fail (st : ClusterState) (msg : String)
  deriving DecidableEq

/-- `createPrometheusConfigMap`: get; create if absent; otherwise overwrite
only `Data` on the fetched object. -/
def createPrometheusConfigMap (ms : MonitorStack) (st : ClusterState) : Res :=
  let name := getPrometheusConfigMapName ms
  let data : List (String × String) := [("prometheus.yml", getPrometheusConfig ms)]
  match sget st.getFaults st.configmaps name with
  | .apiError => .fail st "get configmap: transient API error"
  | .notFound =>
      .ok { st with
            configmaps := ainsert st.configmaps name
              { Labels := getLabels ms "prometheus", Data := data } }
  | .found existing =>
      .ok { st with configmaps := aset st.configmaps name { existing with Data := data } }

/-- The claim object built by `createPrometheusPVC`. -/
def buildPrometheusPVC (ms : MonitorStack) : PVCObj :=
  { Labels := getLabels ms "prometheus"
    AccessModes := ["ReadWriteOnce"]
    StorageRequest := ms.Spec.Prometheus.Storage.Size
    StorageClassName :=
      if ms.Spec.Prometheus.Storage.StorageClass ≠ "" then
        some ms.Spec.Prometheus.Storage.StorageClass
      else none }

/-- `createPrometheusPVC`: create-only — an existing claim is returned
untouched ("PVC已存在，不需要更新"). -/
def createPrometheusPVC (ms : MonitorStack) (st : ClusterState) : Res :=
  let name := getPrometheusPVCName ms
  match sget st.getFaults st.pvcs name with
  | .apiError => .fail st "get pvc: transient API error"
  | .notFound => .ok { st with pvcs := ainsert st.pvcs name (buildPrometheusPVC ms) }
  | .found _ => .ok st

/-- `createPrometheusDeployment`: create if absent; else overwrite spec and
labels (`existing.Spec = deployment.Spec; existing.Labels = deployment.Labels`),
leaving the server-managed status counters as they were. -/
def createPrometheusDeployment (ms : MonitorStack) (st : ClusterState) : Res :=
  let dep := buildPrometheusDeployment ms
  match sget st.getFaults st.deployments dep.Name with
  | .apiError => .fail st "get deployment: transient API error"
  | .notFound =>
      .ok { st with
            deployments := ainsert st.deployments dep.Name
              { content := dep, ReadyReplicas := 0, StatusReplicas := 0 } }
  | .found existing =>
      .ok { st with deployments := aset st.deployments dep.Name { existing with content := dep } }

/-- The service update merge: ports, type and labels are overwritten, the
selector (and all other server-populated fields) kept.  The Go code's extra
`existing.Spec.Ports[0].NodePort = service.Spec.Ports[0].NodePort` for
NodePort services is a no-op after the wholesale ports copy. -/
def applyServiceUpdate (existing desired : ServiceContent) : ServiceContent :=
  { existing with Ports := desired.Ports, Type' := desired.Type', Labels := desired.Labels }

/-- `createPrometheusService`. -/
def createPrometheusService (ms : MonitorStack) (st : ClusterState) : Res :=
  let svc := buildPrometheusService ms
  match sget st.getFaults st.services svc.Name with
  | .apiError => .fail st "get service: transient API error"
  | .notFound => .ok { st with services := ainsert st.services svc.Name { content := svc } }
  | .found existing =>
      .ok { st with
            services := aset st.services svc.Name
              { existing with content := applyServiceUpdate existing.content svc } }

/-- `createGrafanaDatasourcesConfigMap`. -/
def createGrafanaDatasourcesConfigMap (ms : MonitorStack) (st : ClusterState) : Res :=
  let name := getGrafanaDatasourcesConfigMapName ms
  let data : List (String × String) := [("datasources.yaml", buildGrafanaDatasourcesConfig ms)]
  match sget st.getFaults st.configmaps name with
  | .apiError => .fail st "get configmap: transient API error"
  | .notFound =>
      .ok { st with
            configmaps := ainsert st.configmaps name
              { Labels := getLabels ms "grafana", Data := data } }
  | .found existing =>
      .ok { st with configmaps := aset st.configmaps name { existing with Data := data } }

/-- `createGrafanaDeployment`. -/
def createGrafanaDeployment (ms : MonitorStack) (st : ClusterState) : Res :=
  let dep := buildGrafanaDeployment ms
  match sget st.getFaults st.deployments dep.Name with
  | .apiError => .fail st "get deployment: transient API error"
  | .notFound =>
      .ok { st with
            deployments := ainsert st.deployments dep.Name
              { content := dep, ReadyReplicas := 0, StatusReplicas := 0 } }
  | .found existing =>
      .ok { st with deployments := aset st.deployments dep.Name { existing with content := dep } }

/-- `createGrafanaService`. -/
def createGrafanaService (ms : MonitorStack) (st : ClusterState) : Res :=
  let svc := buildGrafanaService ms
  match sget st.getFaults st.services svc.Name with
  | .apiError => .fail st "get service: transient API error"
  | .notFound => .ok { st with services := ainsert st.services svc.Name { content := svc } }
  | .found existing =>
      .ok { st with
            services := aset st.services svc.Name
              { existing with content := applyServiceUpdate existing.content svc } }

/-- The status block at the end of `reconcilePrometheus`: ready and replica
count always rewritten from the observed deployment; message and endpoint set
only in the ready branch — the not-ready branch leaves `Endpoint` as it was. -/
def promStatusUpdate (ms : MonitorStack) (d : DeploymentObj) : ComponentStatus :=
  let ps := ms.Status.PrometheusStatus
  if d.ReadyReplicas > 0 then
    { ps with
      Ready := true
      Replicas := d.StatusReplicas
      Message := "Ready"
      Endpoint := "http://" ++ getPrometheusServiceName ms ++ ":" ++
        toString ms.Spec.Prometheus.Service.Port }
  else
    { ps with Ready := false, Replicas := d.StatusReplicas, Message := "Not Ready" }

/-- The status block at the end of `reconcileGrafana`. -/
def grafStatusUpdate (ms : MonitorStack) (d : DeploymentObj) : ComponentStatus :=
  let gs := ms.Status.GrafanaStatus
  if d.ReadyReplicas > 0 then
    { gs with
      Ready := true
      Replicas := d.StatusReplicas
      Message := "Ready"
      Endpoint := "http://" ++ getGrafanaServiceName ms ++ ":" ++
        toString ms.Spec.Grafana.Service.Port }
  else
    { gs with Ready := false, Replicas := d.StatusReplicas, Message := "Not Ready" }

/-- `reconcilePrometheus`: config artifact → (optional) storage claim →
workload → endpoint, then read back the workload and refresh the component
status.  Returns the state reached, the (possibly status-updated) stack and
the Go error (`none` = nil). -/
def reconcilePrometheus (ms : MonitorStack) (st : ClusterState) :
    ClusterState × MonitorStack × Option String :=
  match createPrometheusConfigMap ms st with
  | .fail st1 e => (st1, ms, some ("failed to create Prometheus ConfigMap: " ++ e))
  | .ok st1 =>
    match (if ms.Spec.Prometheus.Storage.Size ≠ "" then createPrometheusPVC ms st1 else .ok st1) with
    | .fail st2 e => (st2, ms, some ("failed to create Prometheus PVC: " ++ e))
    | .ok st2 =>
      match createPrometheusDeployment ms st2 with
      | .fail st3 e => (st3, ms, some ("failed to create Prometheus Deployment: " ++ e))
      | .ok st3 =>
        match createPrometheusService ms st3 with
        | .fail st4 e => (st4, ms, some ("failed to create Prometheus Service: " ++ e))
        | .ok st4 =>
          match sget st4.getFaults st4.deployments (getPrometheusName ms) with
          | .found d =>
              (st4, { ms with Status := { ms.Status with PrometheusStatus := promStatusUpdate ms d } },
               none)
          | .notFound => (st4, ms, some "get deployment: not found")
          | .apiError => (st4, ms, some "get deployment: transient API error")

/-- `reconcileGrafana`: datasource config artifact (only when datasources are
configured) → workload → endpoint, then the status read-back. -/
def reconcileGrafana (ms : MonitorStack) (st : ClusterState) :
    ClusterState × MonitorStack × Option String :=
  match (if ms.Spec.Grafana.Datasources ≠ [] then createGrafanaDatasourcesConfigMap ms st
         else .ok st) with
  | .fail st1 e => (st1, ms, some ("failed to create Grafana datasources ConfigMap: " ++ e))
  | .ok st1 =>
    match createGrafanaDeployment ms st1 with
    | .fail st2 e => (st2, ms, some ("failed to create Grafana Deployment: " ++ e))
    | .ok st2 =>
      match createGrafanaService ms st2 with
      | .fail st3 e => (st3, ms, some ("failed to create Grafana Service: " ++ e))
      | .ok st3 =>
        match sget st3.getFaults st3.deployments (getGrafanaName ms) with
        | .found d =>
            (st3, { ms with Status := { ms.Status with GrafanaStatus := grafStatusUpdate ms d } },
             none)
        | .notFound => (st3, ms, some "get deployment: not found")
        | .apiError => (st3, ms, some "get deployment: transient API error")

/-- `cleanupPrometheusResources`: for workload, endpoint and config artifact in
turn, delete only if `Get` succeeded; every error (get or delete) is dropped
and the function structurally returns nil — it can never fail. -/
def cleanupPrometheusResources (ms : MonitorStack) (st : ClusterState) : Res :=
  let st1 :=
    match sget st.getFaults st.deployments (getPrometheusName ms) with
    | .found _ => { st with deployments := aerase st.deployments (getPrometheusName ms) }
    | _ => st
  let st2 :=
    match sget st1.getFaults st1.services (getPrometheusServiceName ms) with
    | .found _ => { st1 with services := aerase st1.services (getPrometheusServiceName ms) }
    | _ => st1
  let st3 :=
    match sget st2.getFaults st2.configmaps (getPrometheusConfigMapName ms) with
    | .found _ => { st2 with configmaps := aerase st2.configmaps (getPrometheusConfigMapName ms) }
    | _ => st2
  .ok st3

/-- `cleanupGrafanaResources`: workload and endpoint only (the datasources
config artifact is not deleted); never fails. -/
def cleanupGrafanaResources (ms : MonitorStack) (st : ClusterState) : Res :=
  let st1 :=
    match sget st.getFaults st.deployments (getGrafanaName ms) with
    | .found _ => { st with deployments := aerase st.deployments (getGrafanaName ms) }
    | _ => st
  let st2 :=
    match sget st1.getFaults st1.services (getGrafanaServiceName ms) with
    | .found _ => { st1 with services := aerase st1.services (getGrafanaServiceName ms) }
    | _ => st1
  .ok st2

/-- `updateStatus`: write phase, message and a fresh `lastUpdated`. -/
def updateStatus (now : Nat) (ms : MonitorStack) (phase msg : String) : MonitorStack :=
  { ms with Status := { ms.Status with Phase := phase, Message := msg, LastUpdated := now } }

/-- `updateOverallStatus`: `Ready` iff every enabled component's status is
ready, else `Pending`; `lastUpdated` refreshed on every call. -/
def updateOverallStatus (now : Nat) (ms : MonitorStack) : MonitorStack :=
  let prometheusReady := !ms.Spec.Prometheus.Enabled || ms.Status.PrometheusStatus.Ready
  let grafanaReady := !ms.Spec.Grafana.Enabled || ms.Status.GrafanaStatus.Ready
  if prometheusReady && grafanaReady then
    { ms with Status := { ms.Status with
        Phase := "Ready"
        Message := "All enabled components are ready"
        LastUpdated := now } }
  else
    { ms with Status := { ms.Status with
        Phase := "Pending"
        Message := "Waiting for components to be ready"
        LastUpdated := now } }

/-- The finalizer marker used by the controller. -/
def finalizerName : String := "monitoring.cillian.website/finalizer"

/-- The controller's answer to one reconciliation invocation:
`ctrl.Result{RequeueAfter: …}` plus the returned error. -/
inductive RecOutcome
  | done (requeueAfterSeconds : Nat)
  | failed (requeueAfterSeconds : Nat) (msg : String)
  deriving DecidableEq

/-- `handleDeletion`: cleanup of both components regardless of their enabled
flags, then finalizer removal.  A cleanup failure would requeue after 30s
without touching the finalizer — but the cleanups above never fail. -/
def handleDeletion (ms : MonitorStack) (st : ClusterState) :
    ClusterState × MonitorStack × RecOutcome :=
  match cleanupPrometheusResources ms st with
  | .fail st1 e => (st1, ms, .failed 30 e)
  | .ok st1 =>
    match cleanupGrafanaResources ms st1 with
    | .fail st2 e => (st2, ms, .failed 30 e)
    | .ok st2 =>
        (st2, { ms with Finalizers := ms.Finalizers.filter (fun f => decide (f ≠ finalizerName)) },
         .done 0)

/-- Steps 5–7 of `Reconcile`: per-component converge-or-cleanup (a cleanup
error in the disabled branch is only logged), `Failed` + 1-minute retry on a
component error, otherwise the overall status aggregation and a 5-minute
requeue.  `ms` is the stack after the phase initialization of step 4. -/
def reconcileComponents (now : Nat) (ms : MonitorStack) (st : ClusterState) :
    ClusterState × MonitorStack × RecOutcome :=
  let step5 :=
    if ms.Spec.Prometheus.Enabled then reconcilePrometheus ms st
    else
      match cleanupPrometheusResources ms st with
      | .ok st1 => (st1, ms, none)
      | .fail st1 _ => (st1, ms, none)
  match step5 with
  | (st1, ms1, some e) =>
      (st1, updateStatus now ms1 "Failed" ("Prometheus reconciliation failed: " ++ e),
       .failed 60 e)
  | (st1, ms1, none) =>
    let step6 :=
      if ms1.Spec.Grafana.Enabled then reconcileGrafana ms1 st1
      else
        match cleanupGrafanaResources ms1 st1 with
        | .ok st2 => (st2, ms1, none)
        | .fail st2 _ => (st2, ms1, none)
    match step6 with
    | (st2, ms2, some e) =>
        (st2, updateStatus now ms2 "Failed" ("Grafana reconciliation failed: " ++ e),
         .failed 60 e)
    | (st2, ms2, none) => (st2, updateOverallStatus now ms2, .done 300)

/-- `Reconcile` (steps 2–7; step 1's fetch is the caller handing over `ms`,
and a not-found fetch is a no-op outside this model).  Deletion → deletion
protocol; missing finalizer → add it and stop; unset phase → initialize to
`Pending` and continue; then the per-component steps 5–7. -/
def Reconcile (now : Nat) (ms : MonitorStack) (st : ClusterState) :
    ClusterState × MonitorStack × RecOutcome :=
  if ms.DeletionTimestamp.isSome then handleDeletion ms st
  else if finalizerName ∉ ms.Finalizers then
    (st, { ms with Finalizers := ms.Finalizers ++ [finalizerName] }, .done 0)
  else
    let ms0 :=
      if ms.Status.Phase = "" then
        { ms with Status := { ms.Status with
            Phase := "Pending"
            Message := "Initializing MonitorStack"
            LastUpdated := now } }
      else ms
    reconcileComponents now ms0 st

/-! ### Concrete fixtures for witnesses and counterexamples -/

/-- Zero-valued resource requirements (all quantity strings unset). -/
def emptyResources : ResourceRequirements :=
  { Limits := { CPU := "", Memory := "" }, Requests := { CPU := "", Memory := "" } }

/-- Zero-valued service spec. -/
def emptyServiceSpec : ServiceSpec :=
  { Type' := "", Port := 0, NodePort := 0, Labels := [] }

/-- Zero-valued storage spec. -/
def emptyStorage : StorageSpec := { Size := "", StorageClass := "" }

/-- Zero-valued component status. -/
def emptyComponentStatus : ComponentStatus :=
  { Ready := false, Replicas := 0, Message := "", Endpoint := "" }

/-- A disabled Prometheus spec with every other field unset. -/
def promSpecDisabled : PrometheusSpec :=
  { Enabled := false, Image := "", Tag := "", Resources := emptyResources,
    Storage := emptyStorage, Service := emptyServiceSpec, Config := "", Retention := "" }

/-- An enabled Prometheus spec with every other field unset. -/
def promSpecMinimal : PrometheusSpec :=
  { promSpecDisabled with Enabled := true }

/-- A disabled Grafana spec with every other field unset. -/
def grafSpecDisabled : GrafanaSpec :=
  { Enabled := false, Image := "", Tag := "", Resources := emptyResources,
    Service := emptyServiceSpec, AdminPassword := "", Datasources := [], Dashboards := [] }

/-- An empty object store with no injected faults. -/
def emptyClusterState : ClusterState :=
  { deployments := [], services := [], configmaps := [], pvcs := [], getFaults := [] }

/-- An existing, live MonitorStack (finalizer present, phase set) whose two
subsystems are both disabled — the input on which `validateMonitorStack`
reports a validation error. -/
def demoDisabledStack : MonitorStack :=
  { Name := "demo", Namespace := "default", DeletionTimestamp := none,
    Finalizers := [finalizerName],
    Spec := { Prometheus := promSpecDisabled, Grafana := grafSpecDisabled,
              Namespace := "", Labels := [] },
    Status := { Phase := "Pending", Message := "", PrometheusStatus := emptyComponentStatus,
                GrafanaStatus := emptyComponentStatus, LastUpdated := 0 } }

/-- A stack whose Prometheus subsystem is enabled and every other Prometheus
field unset (the defaulting test input). -/
def promOnlyStack : MonitorStack :=
  { demoDisabledStack with
    Name := "ponly"
    Spec := { Prometheus := promSpecMinimal, Grafana := grafSpecDisabled,
              Namespace := "", Labels := [] } }

/-- A stack whose enabled Prometheus subsystem asks for a NodePort service
with an explicitly set negative node port. -/
def negNodePortStack : MonitorStack :=
  { demoDisabledStack with
    Name := "nodeport"
    Spec := { Prometheus :=
                { Enabled := true, Image := "prom/prometheus", Tag := "latest",
                  Resources := emptyResources, Storage := emptyStorage,
                  Service := { Type' := "NodePort", Port := 9090, NodePort := -1, Labels := [] },
                  Config := "", Retention := "" },
              Grafana := grafSpecDisabled, Namespace := "", Labels := [] } }

/-- A stack marked for deletion. -/
def delStack : MonitorStack :=
  { demoDisabledStack with Name := "del", DeletionTimestamp := some 1 }

/-- A store in which the deletion-protocol cleanup hits a transient API error:
`Get` on the "del-prometheus" workload (and endpoint) fails, while a Grafana
workload is present and deletable. -/
def delFaultState : ClusterState :=
  { deployments := [("del-grafana",
      { content := buildGrafanaDeployment delStack, ReadyReplicas := 1, StatusReplicas := 1 })],
    services := [], configmaps := [], pvcs := [],
    getFaults := ["del-prometheus"] }

/-- A stack marked for deletion, used with a fault-free store. -/
def delCleanStack : MonitorStack :=
  { demoDisabledStack with Name := "clean", DeletionTimestamp := some 1 }

/-- A fault-free store holding both subsystems' workloads for `delCleanStack`. -/
def delCleanState : ClusterState :=
  { deployments :=
      [("clean-prometheus",
        { content := buildPrometheusDeployment delCleanStack, ReadyReplicas := 1, StatusReplicas := 1 }),
       ("clean-grafana",
        { content := buildGrafanaDeployment delCleanStack, ReadyReplicas := 1, StatusReplicas := 1 })],
    services := [], configmaps := [], pvcs := [], getFaults := [] }

/-- The component status a previous reconciliation published for a ready
Grafana workload of stack "acme". -/
def acmeGrafReadyStatus : ComponentStatus :=
  { Ready := true, Replicas := 1, Message := "Ready", Endpoint := "http://acme-grafana:3000" }

/-- Stack "acme" after its dashboard — previously enabled, converged and
ready — has been switched to `enabled: false` (the collector stays disabled
and without children). -/
def acmeDisableStack : MonitorStack :=
  { Name := "acme", Namespace := "default", DeletionTimestamp := none,
    Finalizers := [finalizerName],
    Spec := { Prometheus := promSpecDisabled, Grafana := grafSpecDisabled,
              Namespace := "", Labels := [] },
    Status := { Phase := "Ready", Message := "All enabled components are ready",
                PrometheusStatus := emptyComponentStatus,
                GrafanaStatus := acmeGrafReadyStatus, LastUpdated := 0 } }

/-- The store for `acmeDisableStack`: the previously converged Grafana
workload and endpoint still exist. -/
def acmeDisableState : ClusterState :=
  { deployments := [("acme-grafana",
      { content := buildGrafanaDeployment acmeDisableStack, ReadyReplicas := 1, StatusReplicas := 1 })],
    services := [("acme-grafana", { content := buildGrafanaService acmeDisableStack })],
    configmaps := [], pvcs := [], getFaults := [] }

/-- A stack with an enabled collector (raw config override "x" and otherwise
defaulted fields) whose previous reconciliation observed a ready workload and
published the endpoint. -/
def staleEndpointStack : MonitorStack :=
  { Name := "stale", Namespace := "default", DeletionTimestamp := none,
    Finalizers := [finalizerName],
    Spec := { Prometheus :=
                { Enabled := true, Image := "prom/prometheus", Tag := "latest",
                  Resources := emptyResources, Storage := emptyStorage,
                  Service := { Type' := "ClusterIP", Port := 9090, NodePort := 0, Labels := [] },
                  Config := "x", Retention := "15d" },
              Grafana := grafSpecDisabled, Namespace := "", Labels := [] },
    Status := { Phase := "Ready", Message := "All enabled components are ready",
                PrometheusStatus :=
                  { Ready := true, Replicas := 1, Message := "Ready",
                    Endpoint := "http://stale-prometheus:9090" },
                GrafanaStatus := emptyComponentStatus, LastUpdated := 0 } }

/-- The store for `staleEndpointStack`: the collector's children exist but the
workload now reports zero ready replicas. -/
def staleEndpointState : ClusterState :=
  { deployments := [("stale-prometheus",
      { content := buildPrometheusDeployment staleEndpointStack, ReadyReplicas := 0, StatusReplicas := 1 })],
    services := [("stale-prometheus", { content := buildPrometheusService staleEndpointStack })],
    configmaps := [("stale-prometheus-config",
      { Labels := getLabels staleEndpointStack "prometheus", Data := [("prometheus.yml", "x")] })],
    pvcs := [], getFaults := [] }

/-- A converged stack ("conv"): collector enabled and converged with a ready
workload, dashboard just switched to disabled while its previously converged
children still exist and its component status still reports ready. -/
def convStack : MonitorStack :=
  { Name := "conv", Namespace := "default", DeletionTimestamp := none,
    Finalizers := [finalizerName],
    Spec := { Prometheus :=
                { Enabled := true, Image := "prom/prometheus", Tag := "latest",
                  Resources := emptyResources, Storage := emptyStorage,
                  Service := { Type' := "ClusterIP", Port := 9090, NodePort := 0, Labels := [] },
                  Config := "x", Retention := "15d" },
              Grafana := grafSpecDisabled, Namespace := "", Labels := [] },
    Status := { Phase := "Ready", Message := "All enabled components are ready",
                PrometheusStatus :=
                  { Ready := true, Replicas := 1, Message := "Ready",
                    Endpoint := "http://conv-prometheus:9090" },
                GrafanaStatus :=
                  { Ready := true, Replicas := 1, Message := "Ready",
                    Endpoint := "http://conv-grafana:3000" },
                LastUpdated := 0 } }

/-- The converged collector workload of `convStack` (ready, one replica). -/
def convDeployObj : DeploymentObj :=
  { content := buildPrometheusDeployment convStack, ReadyReplicas := 1, StatusReplicas := 1 }

/-- The converged collector endpoint of `convStack`. -/
def convSvcObj : ServiceObj :=
  { content := buildPrometheusService convStack }

/-- The converged collector config artifact of `convStack`. -/
def convCMObj : ConfigMapObj :=
  { Labels := getLabels convStack "prometheus", Data := [("prometheus.yml", "x")] }

/-- The store for `convStack`: converged collector children (workload ready)
plus the leftover dashboard children. -/
def convState : ClusterState :=
  { deployments :=
      [("conv-prometheus", convDeployObj),
       ("conv-grafana",
        { content := buildGrafanaDeployment convStack, ReadyReplicas := 1, StatusReplicas := 1 })],
    services :=
      [("conv-prometheus", convSvcObj),
       ("conv-grafana", { content := buildGrafanaService convStack })],
    configmaps := [("conv-prometheus-config", convCMObj)],
    pvcs := [], getFaults := [] }

/-- A stack with an enabled collector configured for durable storage. -/
def pvcStack : MonitorStack :=
  { demoDisabledStack with
    Name := "pvc"
    Spec := { Prometheus :=
                { Enabled := true, Image := "prom/prometheus", Tag := "latest",
                  Resources := emptyResources,
                  Storage := { Size := "10Gi", StorageClass := "" },
                  Service := { Type' := "ClusterIP", Port := 9090, NodePort := 0, Labels := [] },
                  Config := "x", Retention := "15d" },
              Grafana := grafSpecDisabled, Namespace := "", Labels := [] } }

/-- An already-existing durable-storage claim whose fields deliberately differ
from what the builder would produce, so that any overwrite would show. -/
def pvcExistingObj : PVCObj :=
  { Labels := [], AccessModes := ["ReadWriteOnce"], StorageRequest := "5Gi",
    StorageClassName := some "fast" }

/-- A store already holding the durable-storage claim of `pvcStack`. -/
def pvcExistingState : ClusterState :=
  { deployments := [], services := [],
    configmaps := [],
    pvcs := [("pvc-prometheus-data", pvcExistingObj)],
    getFaults := [] }

/-- A second concrete stack name for the name-disjointness witness. -/
def otherStack : MonitorStack :=
  { demoDisabledStack with Name := "other" }

/-- A stack with both subsystems enabled, the collector's status ready and the
dashboard's not ready (the aggregator's Pending example). -/
def mixedReadyStack : MonitorStack :=
  { demoDisabledStack with
    Name := "mixed"
    Spec := { Prometheus := promSpecMinimal,
              Grafana := { grafSpecDisabled with Enabled := true },
              Namespace := "", Labels := [] }
    Status := { Phase := "Pending", Message := "",
                PrometheusStatus := { emptyComponentStatus with Ready := true },
                GrafanaStatus := emptyComponentStatus, LastUpdated := 0 } }

/-- The state a `Res` carries, whether the step succeeded or failed. -/
def Res.state : Res → ClusterState
  | .ok st => st
  | .fail st _ => st

/-- All child-resource names the engine derives for a stack, in the order
workload, endpoint, config artifact, storage claim (collector) then workload,
endpoint, config artifact (dashboard). -/
def stackChildNames (ms : MonitorStack) : List String :=
  [getPrometheusName ms, getPrometheusServiceName ms, getPrometheusConfigMapName ms,
   getPrometheusPVCName ms, getGrafanaName ms, getGrafanaServiceName ms,
   getGrafanaDatasourcesConfigMapName ms]

/-! ### Store and string infrastructure lemmas -/

theorem alookup_ainsert_ne {α : Type} (l : List (String × α)) (k k' : String) (v : α)
    (h : k' ≠ k) : alookup (ainsert l k v) k' = alookup l k' := by
  simp [ainsert, alookup, Ne.symm h]

theorem alookup_ainsert_self {α : Type} (l : List (String × α)) (k : String) (v : α) :
    alookup (ainsert l k v) k = some v := by
  simp [ainsert, alookup]

theorem alookup_aset_ne {α : Type} (l : List (String × α)) (k k' : String) (v : α)
    (h : k' ≠ k) : alookup (aset l k v) k' = alookup l k' := by
  induction l with
  | nil => rfl
  | cons p rest ih =>
    obtain ⟨pk, pv⟩ := p
    by_cases hp : pk = k
    · subst hp
      simp [aset, alookup, Ne.symm h]
    · simp only [aset, if_neg hp, alookup]
      by_cases hq : pk = k'
      · simp [hq]
      · simp [hq, ih]

theorem aset_of_lookup_eq {α : Type} (l : List (String × α)) (k : String) (v : α)
    (h : alookup l k = some v) : aset l k v = l := by
  induction l with
  | nil => simp [alookup] at h
  | cons p rest ih =>
    obtain ⟨pk, pv⟩ := p
    by_cases hp : pk = k
    · subst hp
      simp only [alookup, if_true, eq_self_iff_true, Option.some.injEq] at h
      simp only [aset, if_pos rfl]
      simp [h]
    · simp only [alookup, if_neg hp] at h
      simp [aset, hp, ih h]

theorem alookup_aerase_self {α : Type} (l : List (String × α)) (k : String) :
    alookup (aerase l k) k = none := by
  induction l with
  | nil => rfl
  | cons p rest ih =>
    obtain ⟨pk, pv⟩ := p
    by_cases hp : pk = k
    · simp only [aerase] at ih ⊢
      simpa [List.filter, hp] using ih
    · simp only [aerase] at ih ⊢
      simpa [List.filter, hp, alookup] using ih

theorem alookup_aerase_ne {α : Type} (l : List (String × α)) (k k' : String)
    (h : k' ≠ k) : alookup (aerase l k) k' = alookup l k' := by
  induction l with
  | nil => rfl
  | cons p rest ih =>
    obtain ⟨pk, pv⟩ := p
    by_cases hp : pk = k
    · subst hp
      simp only [aerase] at ih ⊢
      simpa [List.filter, alookup, Ne.symm h] using ih
    · by_cases hq : pk = k'
      · subst hq
        simp only [aerase] at ih ⊢
        simp [List.filter, hp, alookup, h]
      · simp only [aerase] at ih ⊢
        simpa [List.filter, hp, alookup, hq] using ih

theorem alookup_aerase_none {α : Type} (l : List (String × α)) (k k' : String)
    (h : alookup l k' = none) : alookup (aerase l k) k' = none := by
  by_cases hq : k' = k
  · subst hq; exact alookup_aerase_self l k'
  · rw [alookup_aerase_ne l k k' hq]; exact h

theorem string_data_append (s t : String) : (s ++ t).data = s.data ++ t.data := by
  cases s; cases t; rfl

theorem string_eq_of_data (s t : String) (h : s.data = t.data) : s = t := by
  cases s; cases t; exact congrArg String.mk h

theorem mism_append_ne {a b : List Char} (h : mism a b = true) :
    ∀ u v : List Char, a ++ u ≠ b ++ v := by
  induction a generalizing b with
  | nil => simp [mism] at h
  | cons x xs ih =>
    cases b with
    | nil => simp [mism] at h
    | cons y ys =>
      intro u v hne
      simp only [List.cons_append, List.cons.injEq] at hne
      simp only [mism, Bool.or_eq_true, decide_eq_true_eq, ne_eq] at h
      rcases h with h | h
      · exact h hne.1
      · exact ih (b := ys) h u v hne.2

/-- Two appended strings differ whenever their suffixes mismatch somewhere
from the right end. -/
theorem suffix_mism_ne (a b : String) (h : mism a.data.reverse b.data.reverse = true)
    (s₁ s₂ : String) : s₁ ++ a ≠ s₂ ++ b := by
  intro he
  have hd : (s₁ ++ a).data = (s₂ ++ b).data := congrArg String.data he
  rw [string_data_append, string_data_append] at hd
  have hr := congrArg List.reverse hd
  rw [List.reverse_append, List.reverse_append] at hr
  exact mism_append_ne h _ _ hr

/-- Appending the same suffix to different strings keeps them different. -/
theorem suffix_cancel_ne (a s₁ s₂ : String) (h : s₁ ≠ s₂) : s₁ ++ a ≠ s₂ ++ a := by
  intro he
  apply h
  have hd : (s₁ ++ a).data = (s₂ ++ a).data := congrArg String.data he
  rw [string_data_append, string_data_append] at hd
  exact string_eq_of_data _ _ (List.append_cancel_right hd)

/-! ### Shared helper lemmas about the engine's pure helpers -/

theorem setPrometheusDefaults_idem (p : PrometheusSpec) :
    setPrometheusDefaults (setPrometheusDefaults p) = setPrometheusDefaults p := by
  unfold setPrometheusDefaults
  ext <;> simp <;> split_ifs <;> simp_all

theorem setGrafanaDefaults_idem (g : GrafanaSpec) :
    setGrafanaDefaults (setGrafanaDefaults g) = setGrafanaDefaults g := by
  unfold setGrafanaDefaults
  ext <;> simp <;> split_ifs <;> simp_all

theorem setPrometheusDefaults_Enabled (p : PrometheusSpec) :
    (setPrometheusDefaults p).Enabled = p.Enabled := rfl

theorem setGrafanaDefaults_Enabled (g : GrafanaSpec) :
    (setGrafanaDefaults g).Enabled = g.Enabled := rfl

theorem findDatasourceError_none_iff (l : List DatasourceSpec) :
    ∀ i, (findDatasourceError i l = none ↔
      ∀ ds ∈ l, ds.Name ≠ "" ∧ ds.Type' ≠ "" ∧ ds.URL ≠ "") := by
  induction l with
  | nil => intro i; simp [findDatasourceError]
  | cons ds rest ih =>
    intro i
    simp only [findDatasourceError, List.mem_cons]
    split_ifs with h1 h2 h3 <;> simp_all [ih (i + 1)]

theorem validatePrometheusConfig_none_iff (ms : MonitorStack) :
    validatePrometheusConfig ms = none ↔
      (1 ≤ ms.Spec.Prometheus.Service.Port ∧ ms.Spec.Prometheus.Service.Port ≤ 65535 ∧
       (ms.Spec.Prometheus.Service.Type' = "NodePort" →
         0 < ms.Spec.Prometheus.Service.NodePort →
         30000 ≤ ms.Spec.Prometheus.Service.NodePort ∧
         ms.Spec.Prometheus.Service.NodePort ≤ 32767) ∧
       ms.Spec.Prometheus.Image ≠ "" ∧ ms.Spec.Prometheus.Tag ≠ "") := by
  unfold validatePrometheusConfig
  dsimp only
  split_ifs with h1 h2 h3 h4 <;> simp_all
  all_goals intros
  all_goals exfalso
  all_goals omega

theorem validateGrafanaConfig_none_iff (ms : MonitorStack) :
    validateGrafanaConfig ms = none ↔
      (1 ≤ ms.Spec.Grafana.Service.Port ∧ ms.Spec.Grafana.Service.Port ≤ 65535 ∧
       (ms.Spec.Grafana.Service.Type' = "NodePort" →
         0 < ms.Spec.Grafana.Service.NodePort →
         30000 ≤ ms.Spec.Grafana.Service.NodePort ∧
         ms.Spec.Grafana.Service.NodePort ≤ 32767) ∧
       ms.Spec.Grafana.Image ≠ "" ∧ ms.Spec.Grafana.Tag ≠ "" ∧
       ms.Spec.Grafana.AdminPassword ≠ "" ∧
       (∀ ds ∈ ms.Spec.Grafana.Datasources, ds.Name ≠ "" ∧ ds.Type' ≠ "" ∧ ds.URL ≠ "")) := by
  unfold validateGrafanaConfig
  dsimp only
  split_ifs with h1 h2 h3 h4 h5 <;> simp_all [findDatasourceError_none_iff]
  all_goals intros
  all_goals exfalso
  all_goals omega

/-! ### Claim C1 -/

/-- C1 (code bug): the reconciliation loop never applies the Spec Normalizer.
On an existing, live stack (finalizer present, phase set, no deletion
timestamp) whose spec `validateMonitorStack` rejects because both subsystems
are disabled, `Reconcile` does not surface `Failed` and does not stop: it
runs the disable-cleanup branches, writes phase `Ready` ("All enabled
components are ready") and schedules the normal 5-minute requeue. -/
theorem C1_normalizer_not_invoked :
    validateMonitorStack demoDisabledStack =
      some "at least one component (Prometheus or Grafana) must be enabled" ∧
    (Reconcile 0 demoDisabledStack emptyClusterState).2.2 = RecOutcome.done 300 ∧
    (Reconcile 0 demoDisabledStack emptyClusterState).2.1.Status.Phase = "Ready" ∧
    (Reconcile 0 demoDisabledStack emptyClusterState).2.1.Status.Message =
      "All enabled components are ready" := by
  refine ⟨?_, ?_, ?_, ?_⟩ <;> decide

/-! ### Claim C2 -/

/-- C2: the status aggregator writes phase `Ready` exactly when each subsystem
is disabled or has a ready component status, writes `Pending` otherwise, never
writes `Failed`, and refreshes `lastUpdated` on every write; in particular
with the collector enabled and ready but the dashboard enabled and not ready
the phase is `Pending`. -/
theorem C2_status_aggregator :
    (∀ (now : Nat) (ms : MonitorStack),
      ((updateOverallStatus now ms).Status.Phase = "Ready" ∨
       (updateOverallStatus now ms).Status.Phase = "Pending") ∧
      ((updateOverallStatus now ms).Status.Phase = "Ready" ↔
        ((ms.Spec.Prometheus.Enabled = false ∨ ms.Status.PrometheusStatus.Ready = true) ∧
         (ms.Spec.Grafana.Enabled = false ∨ ms.Status.GrafanaStatus.Ready = true))) ∧
      (updateOverallStatus now ms).Status.Phase ≠ "Failed" ∧
      (updateOverallStatus now ms).Status.LastUpdated = now) ∧
    (updateOverallStatus 7 mixedReadyStack).Status.Phase = "Pending" := by
  constructor
  · intro now ms
    unfold updateOverallStatus
    rcases hb : ((!ms.Spec.Prometheus.Enabled || ms.Status.PrometheusStatus.Ready) &&
        (!ms.Spec.Grafana.Enabled || ms.Status.GrafanaStatus.Ready)) with _ | _
    · rw [if_neg (by simp [hb])]
      refine ⟨Or.inr rfl, ?_, by simp, rfl⟩
      constructor
      · intro h
        exact absurd h (by simp)
      · intro hr
        simp only [Bool.and_eq_false_iff, Bool.or_eq_false_iff, Bool.not_eq_false'] at hb
        exfalso
        rcases hb with ⟨hpe, hpr⟩ | ⟨hge, hgr⟩
        · rcases hr.1 with h | h <;> simp_all
        · rcases hr.2 with h | h <;> simp_all
    · rw [if_pos (by simp [hb])]
      refine ⟨Or.inl rfl, ?_, by simp, rfl⟩
      simp only [Bool.and_eq_true, Bool.or_eq_true, Bool.not_eq_true'] at hb
      exact iff_of_true rfl hb
  · decide

/-! ### Claim C4 -/

/-- C4: defaulting an enabled collector spec with every other field unset
yields port 9090, type ClusterIP, retention "15d", cpu request "100m", memory
request "256Mi", image "prom/prometheus" and tag "latest"; every default
assignment fires only on an unset field, so explicitly set values survive;
and defaulting is idempotent. -/
theorem C4_defaulting :
    ((setDefaultValues promOnlyStack).Spec.Prometheus.Service.Port = 9090 ∧
     (setDefaultValues promOnlyStack).Spec.Prometheus.Service.Type' = "ClusterIP" ∧
     (setDefaultValues promOnlyStack).Spec.Prometheus.Retention = "15d" ∧
     (setDefaultValues promOnlyStack).Spec.Prometheus.Resources.Requests.CPU = "100m" ∧
     (setDefaultValues promOnlyStack).Spec.Prometheus.Resources.Requests.Memory = "256Mi" ∧
     (setDefaultValues promOnlyStack).Spec.Prometheus.Image = "prom/prometheus" ∧
     (setDefaultValues promOnlyStack).Spec.Prometheus.Tag = "latest") ∧
    (∀ p : PrometheusSpec,
      (p.Image ≠ "" → (setPrometheusDefaults p).Image = p.Image) ∧
      (p.Tag ≠ "" → (setPrometheusDefaults p).Tag = p.Tag) ∧
      (p.Service.Port ≠ 0 → (setPrometheusDefaults p).Service.Port = p.Service.Port) ∧
      (p.Service.Type' ≠ "" → (setPrometheusDefaults p).Service.Type' = p.Service.Type') ∧
      (p.Retention ≠ "" → (setPrometheusDefaults p).Retention = p.Retention) ∧
      (p.Resources.Requests.CPU ≠ "" →
        (setPrometheusDefaults p).Resources.Requests.CPU = p.Resources.Requests.CPU) ∧
      (p.Resources.Requests.Memory ≠ "" →
        (setPrometheusDefaults p).Resources.Requests.Memory = p.Resources.Requests.Memory)) ∧
    (∀ g : GrafanaSpec,
      (g.Image ≠ "" → (setGrafanaDefaults g).Image = g.Image) ∧
      (g.Tag ≠ "" → (setGrafanaDefaults g).Tag = g.Tag) ∧
      (g.Service.Port ≠ 0 → (setGrafanaDefaults g).Service.Port = g.Service.Port) ∧
      (g.Service.Type' ≠ "" → (setGrafanaDefaults g).Service.Type' = g.Service.Type') ∧
      (g.AdminPassword ≠ "" → (setGrafanaDefaults g).AdminPassword = g.AdminPassword) ∧
      (g.Resources.Requests.CPU ≠ "" →
        (setGrafanaDefaults g).Resources.Requests.CPU = g.Resources.Requests.CPU) ∧
      (g.Resources.Requests.Memory ≠ "" →
        (setGrafanaDefaults g).Resources.Requests.Memory = g.Resources.Requests.Memory)) ∧
    (∀ ms : MonitorStack, setDefaultValues (setDefaultValues ms) = setDefaultValues ms) := by
  refine ⟨by decide, ?_, ?_, ?_⟩
  · intro p
    refine ⟨?_, ?_, ?_, ?_, ?_, ?_, ?_⟩ <;>
      (intro h; simp [setPrometheusDefaults, h])
  · intro g
    refine ⟨?_, ?_, ?_, ?_, ?_, ?_, ?_⟩ <;>
      (intro h; simp [setGrafanaDefaults, h])
  · intro ms
    by_cases hp : ms.Spec.Prometheus.Enabled <;> by_cases hg : ms.Spec.Grafana.Enabled <;>
      simp [setDefaultValues, hp, hg, setPrometheusDefaults_Enabled, setGrafanaDefaults_Enabled,
        setPrometheusDefaults_idem, setGrafanaDefaults_idem]

/-- Witness for C4: applying the preservation part at a concrete spec whose
image is explicitly set shows the explicit value survives defaulting. -/
theorem C4_defaulting_witness :
    (setPrometheusDefaults negNodePortStack.Spec.Prometheus).Image = "prom/prometheus" :=
  (C4_defaulting.2.1 negNodePortStack.Spec.Prometheus).1 (by decide)

/-! ### Claim C5 -/

/-- C5 counterexample: the claim predicts a validation error for a NodePort
service whose explicitly set (non-zero) node port lies outside
[30000, 32767]; for the negative node port −1 (non-zero and outside the
range) `validateMonitorStack` nevertheless returns nil, because the code
guards the range check with `NodePort > 0`, not `NodePort ≠ 0`. -/
theorem C5_negative_nodeport_counterexample :
    validateMonitorStack negNodePortStack = none ∧
    negNodePortStack.Spec.Prometheus.Enabled = true ∧
    negNodePortStack.Spec.Prometheus.Service.Type' = "NodePort" ∧
    negNodePortStack.Spec.Prometheus.Service.NodePort ≠ 0 ∧
    (negNodePortStack.Spec.Prometheus.Service.NodePort < 30000 ∨
     negNodePortStack.Spec.Prometheus.Service.NodePort > 32767) := by
  refine ⟨?_, ?_, ?_, ?_, ?_⟩ <;> decide

/-- C5 (amended): validation succeeds iff at least one subsystem is enabled
and each enabled subsystem has its port in [1, 65535], any *positive* node
port of a NodePort service in [30000, 32767], non-empty image and tag, and
(dashboard only) a non-empty admin password and non-empty name/type/url for
every datasource. -/
theorem C5_validation_characterization (ms : MonitorStack) :
    validateMonitorStack ms = none ↔
      ((ms.Spec.Prometheus.Enabled = true ∨ ms.Spec.Grafana.Enabled = true) ∧
       (ms.Spec.Prometheus.Enabled = true →
         (1 ≤ ms.Spec.Prometheus.Service.Port ∧ ms.Spec.Prometheus.Service.Port ≤ 65535 ∧
          (ms.Spec.Prometheus.Service.Type' = "NodePort" →
            0 < ms.Spec.Prometheus.Service.NodePort →
            30000 ≤ ms.Spec.Prometheus.Service.NodePort ∧
            ms.Spec.Prometheus.Service.NodePort ≤ 32767) ∧
          ms.Spec.Prometheus.Image ≠ "" ∧ ms.Spec.Prometheus.Tag ≠ "")) ∧
       (ms.Spec.Grafana.Enabled = true →
         (1 ≤ ms.Spec.Grafana.Service.Port ∧ ms.Spec.Grafana.Service.Port ≤ 65535 ∧
          (ms.Spec.Grafana.Service.Type' = "NodePort" →
            0 < ms.Spec.Grafana.Service.NodePort →
            30000 ≤ ms.Spec.Grafana.Service.NodePort ∧
            ms.Spec.Grafana.Service.NodePort ≤ 32767) ∧
          ms.Spec.Grafana.Image ≠ "" ∧ ms.Spec.Grafana.Tag ≠ "" ∧
          ms.Spec.Grafana.AdminPassword ≠ "" ∧
          (∀ ds ∈ ms.Spec.Grafana.Datasources,
            ds.Name ≠ "" ∧ ds.Type' ≠ "" ∧ ds.URL ≠ "")))) := by
  constructor
  · intro h
    unfold validateMonitorStack at h
    by_cases hboth : (¬ ms.Spec.Prometheus.Enabled ∧ ¬ ms.Spec.Grafana.Enabled)
    · rw [if_pos hboth] at h
      exact absurd h (by simp)
    · rw [if_neg hboth] at h
      rcases hvp : (if ms.Spec.Prometheus.Enabled then validatePrometheusConfig ms else none)
          with _ | e
      · rw [hvp] at h
        rcases hvg : (if ms.Spec.Grafana.Enabled then validateGrafanaConfig ms else none)
            with _ | e2
        · refine ⟨?_, ?_, ?_⟩
          · by_contra hc
            push_neg at hc
            exact hboth ⟨by simp [hc.1], by simp [hc.2]⟩
          · intro hpe
            rw [if_pos hpe] at hvp
            exact (validatePrometheusConfig_none_iff ms).mp hvp
          · intro hge
            rw [if_pos hge] at hvg
            exact (validateGrafanaConfig_none_iff ms).mp hvg
        · rw [hvg] at h
          exact absurd h (by simp)
      · rw [hvp] at h
        exact absurd h (by simp)
  · rintro ⟨hen, hpok, hgok⟩
    unfold validateMonitorStack
    have hb : ¬ (¬ ms.Spec.Prometheus.Enabled ∧ ¬ ms.Spec.Grafana.Enabled) := by
      rcases hen with h | h <;> simp [h]
    rw [if_neg hb]
    have hvp : (if ms.Spec.Prometheus.Enabled then validatePrometheusConfig ms else none) = none := by
      by_cases hpe : ms.Spec.Prometheus.Enabled = true
      · rw [if_pos hpe]
        exact (validatePrometheusConfig_none_iff ms).mpr (hpok hpe)
      · simp [hpe]
    have hvg : (if ms.Spec.Grafana.Enabled then validateGrafanaConfig ms else none) = none := by
      by_cases hge : ms.Spec.Grafana.Enabled = true
      · rw [if_pos hge]
        exact (validateGrafanaConfig_none_iff ms).mpr (hgok hge)
      · simp [hge]
    rw [hvp, hvg]

/-- Witness for C5's amended characterization at a concrete valid spec. -/
theorem C5_validation_characterization_witness :
    validateMonitorStack staleEndpointStack = none :=
  (C5_validation_characterization staleEndpointStack).mpr
    ⟨Or.inl rfl,
     fun _ => ⟨by decide, by decide, fun h => absurd h (by decide), by decide, by decide⟩,
     fun hg => absurd hg (by decide)⟩

/-! ### Claim C8 -/

/-- C8: converging the durable-storage claim is create-only: when the get
finds an existing claim the step succeeds with the store left completely
untouched (no update, no delete, every field of the stored claim unchanged);
a create is issued exactly when the get reports not-found; a faulted get
fails the step without touching the store. -/
theorem C8_pvc_create_only (ms : MonitorStack) (st : ClusterState) :
    (getPrometheusPVCName ms ∉ st.getFaults →
      (∀ v, alookup st.pvcs (getPrometheusPVCName ms) = some v →
        createPrometheusPVC ms st = Res.ok st) ∧
      (alookup st.pvcs (getPrometheusPVCName ms) = none →
        createPrometheusPVC ms st =
          Res.ok { st with pvcs := ainsert st.pvcs (getPrometheusPVCName ms) (buildPrometheusPVC ms) })) ∧
    (getPrometheusPVCName ms ∈ st.getFaults →
      createPrometheusPVC ms st = Res.fail st "get pvc: transient API error") := by
  constructor
  · intro hnf
    constructor
    · intro v hv
      unfold createPrometheusPVC sget
      dsimp only
      rw [if_neg hnf, hv]
    · intro hv
      unfold createPrometheusPVC sget
      dsimp only
      rw [if_neg hnf, hv]
  · intro hf
    unfold createPrometheusPVC sget
    dsimp only
    rw [if_pos hf]

/-- Witness for C8: a pre-existing claim with different fields survives the
step untouched. -/
theorem C8_pvc_create_only_witness :
    createPrometheusPVC pvcStack pvcExistingState = Res.ok pvcExistingState :=
  ((C8_pvc_create_only pvcStack pvcExistingState).1 (by decide)).1 pvcExistingObj (by decide)

/-! ### Claim C9 -/

/-- C9: the child names of stack "acme" are exactly acme-prometheus (workload
and endpoint), acme-prometheus-config, acme-prometheus-data, acme-grafana
(workload and endpoint), acme-grafana-datasources; each name depends only on
the stack name; and distinct stack names yield disjoint child-name sets. -/
theorem C9_child_naming :
    (getPrometheusName acmeDisableStack = "acme-prometheus" ∧
     getPrometheusServiceName acmeDisableStack = "acme-prometheus" ∧
     getPrometheusConfigMapName acmeDisableStack = "acme-prometheus-config" ∧
     getPrometheusPVCName acmeDisableStack = "acme-prometheus-data" ∧
     getGrafanaName acmeDisableStack = "acme-grafana" ∧
     getGrafanaServiceName acmeDisableStack = "acme-grafana" ∧
     getGrafanaDatasourcesConfigMapName acmeDisableStack = "acme-grafana-datasources" ∧
     (stackChildNames acmeDisableStack).dedup =
       ["acme-prometheus", "acme-prometheus-config", "acme-prometheus-data",
        "acme-grafana", "acme-grafana-datasources"]) ∧
    (∀ ms1 ms2 : MonitorStack, ms1.Name = ms2.Name →
      stackChildNames ms1 = stackChildNames ms2) ∧
    (∀ ms1 ms2 : MonitorStack, ms1.Name ≠ ms2.Name →
      ∀ n, n ∈ stackChildNames ms1 → n ∉ stackChildNames ms2) := by
  refine ⟨by decide, ?_, ?_⟩
  · intro ms1 ms2 h
    simp [stackChildNames, getPrometheusName, getPrometheusServiceName,
      getPrometheusConfigMapName, getPrometheusPVCName, getGrafanaName,
      getGrafanaServiceName, getGrafanaDatasourcesConfigMapName, h]
  · intro ms1 ms2 hne n h1 h2
    simp only [stackChildNames, getPrometheusName, getPrometheusServiceName,
      getPrometheusConfigMapName, getPrometheusPVCName, getGrafanaName,
      getGrafanaServiceName, getGrafanaDatasourcesConfigMapName,
      List.mem_cons, List.not_mem_nil, or_false] at h1 h2
    rcases h1 with h1 | h1 | h1 | h1 | h1 | h1 | h1 <;> subst h1 <;>
      rcases h2 with h2 | h2 | h2 | h2 | h2 | h2 | h2 <;>
      first
        | exact suffix_cancel_ne _ _ _ hne h2
        | exact suffix_mism_ne _ _ (by decide) _ _ h2

/-- Witness for C9's disjointness at two concrete stacks. -/
theorem C9_child_naming_witness :
    "acme-prometheus" ∉ stackChildNames otherStack :=
  C9_child_naming.2.2 acmeDisableStack otherStack (by decide) "acme-prometheus" (by decide)

/-! ### Engine step characterization lemmas -/

theorem sget_notFound_lookup {α : Type} (f : List String) (l : List (String × α)) (k : String)
    (h : sget f l k = GetRes.notFound) : alookup l k = none := by
  unfold sget at h
  by_cases hf : k ∈ f
  · rw [if_pos hf] at h
    exact GetRes.noConfusion h
  · rw [if_neg hf] at h
    rcases hl : alookup l k with _ | v
    · rfl
    · rw [hl] at h
      exact GetRes.noConfusion h

theorem sget_apiError_mem {α : Type} (f : List String) (l : List (String × α)) (k : String)
    (h : sget f l k = GetRes.apiError) : k ∈ f := by
  unfold sget at h
  by_cases hf : k ∈ f
  · exact hf
  · rw [if_neg hf] at h
    rcases hl : alookup l k with _ | v <;> rw [hl] at h <;> exact GetRes.noConfusion h

theorem sget_found_lookup {α : Type} (f : List String) (l : List (String × α)) (k : String)
    (v : α) (h : sget f l k = GetRes.found v) : alookup l k = some v := by
  unfold sget at h
  by_cases hf : k ∈ f
  · rw [if_pos hf] at h
    exact GetRes.noConfusion h
  · rw [if_neg hf] at h
    rcases hl : alookup l k with _ | w <;> rw [hl] at h
    · exact GetRes.noConfusion h
    · injection h with hw
      rw [hw]

theorem sget_of_lookup_some {α : Type} (f : List String) (l : List (String × α)) (k : String)
    (v : α) (hf : k ∉ f) (hl : alookup l k = some v) : sget f l k = GetRes.found v := by
  unfold sget
  rw [if_neg hf, hl]

/-- What `cleanupGrafanaResources` does to the store: it always reports
success, touches only the dashboard workload and endpoint entries (removing
them whenever their get succeeds) and leaves everything else alone. -/
theorem cleanupGraf_spec (ms : MonitorStack) (st : ClusterState) :
    cleanupGrafanaResources ms st = Res.ok ((cleanupGrafanaResources ms st).state) ∧
    (cleanupGrafanaResources ms st).state.getFaults = st.getFaults ∧
    (cleanupGrafanaResources ms st).state.pvcs = st.pvcs ∧
    (cleanupGrafanaResources ms st).state.configmaps = st.configmaps ∧
    (∀ k, k ≠ getGrafanaName ms →
      alookup (cleanupGrafanaResources ms st).state.deployments k = alookup st.deployments k) ∧
    (getGrafanaName ms ∉ st.getFaults →
      alookup (cleanupGrafanaResources ms st).state.deployments (getGrafanaName ms) = none) ∧
    (∀ k, k ≠ getGrafanaServiceName ms →
      alookup (cleanupGrafanaResources ms st).state.services k = alookup st.services k) ∧
    (getGrafanaServiceName ms ∉ st.getFaults →
      alookup (cleanupGrafanaResources ms st).state.services (getGrafanaServiceName ms) = none) := by
  unfold cleanupGrafanaResources Res.state
  rcases h1 : sget st.getFaults st.deployments (getGrafanaName ms) with a | _ | _ <;>
    rcases h2 : sget st.getFaults st.services (getGrafanaServiceName ms) with b | _ | _ <;>
    simp only [h1, h2] <;>
    refine ⟨by trivial, by trivial, by trivial, by trivial, ?_, ?_, ?_, ?_⟩ <;>
    first
    | exact fun k hk => alookup_aerase_ne _ _ _ hk
    | exact fun k hk => rfl
    | exact fun _ => alookup_aerase_self _ _
    | exact fun _ => sget_notFound_lookup _ _ _ (by assumption)
    | exact fun hnf => absurd (sget_apiError_mem _ _ _ (by assumption)) hnf
    | exact fun _ _ => trivial

/-- What `cleanupPrometheusResources` does to the store: always success,
touching only the collector workload, endpoint and config artifact entries. -/
theorem cleanupProm_spec (ms : MonitorStack) (st : ClusterState) :
    cleanupPrometheusResources ms st = Res.ok ((cleanupPrometheusResources ms st).state) ∧
    (cleanupPrometheusResources ms st).state.getFaults = st.getFaults ∧
    (cleanupPrometheusResources ms st).state.pvcs = st.pvcs ∧
    (∀ k, k ≠ getPrometheusName ms →
      alookup (cleanupPrometheusResources ms st).state.deployments k = alookup st.deployments k) ∧
    (getPrometheusName ms ∉ st.getFaults →
      alookup (cleanupPrometheusResources ms st).state.deployments (getPrometheusName ms) = none) ∧
    (∀ k, k ≠ getPrometheusServiceName ms →
      alookup (cleanupPrometheusResources ms st).state.services k = alookup st.services k) ∧
    (getPrometheusServiceName ms ∉ st.getFaults →
      alookup (cleanupPrometheusResources ms st).state.services (getPrometheusServiceName ms) = none) ∧
    (∀ k, k ≠ getPrometheusConfigMapName ms →
      alookup (cleanupPrometheusResources ms st).state.configmaps k = alookup st.configmaps k) ∧
    (getPrometheusConfigMapName ms ∉ st.getFaults →
      alookup (cleanupPrometheusResources ms st).state.configmaps (getPrometheusConfigMapName ms) = none) := by
  unfold cleanupPrometheusResources Res.state
  rcases h1 : sget st.getFaults st.deployments (getPrometheusName ms) with a | _ | _ <;>
    rcases h2 : sget st.getFaults st.services (getPrometheusServiceName ms) with b | _ | _ <;>
    rcases h3 : sget st.getFaults st.configmaps (getPrometheusConfigMapName ms) with c | _ | _ <;>
    simp only [h1, h2, h3] <;>
    refine ⟨by trivial, by trivial, by trivial, ?_, ?_, ?_, ?_, ?_, ?_⟩ <;>
    first
    | exact fun k hk => alookup_aerase_ne _ _ _ hk
    | exact fun k hk => rfl
    | exact fun _ => alookup_aerase_self _ _
    | exact fun _ => sget_notFound_lookup _ _ _ (by assumption)
    | exact fun hnf => absurd (sget_apiError_mem _ _ _ (by assumption)) hnf
    | exact fun _ _ => trivial

/-! ### Claim C3 -/

/-- C3 counterexample: with a transient API error injected on the collector
workload's `Get`, the deletion protocol still reports success without retry
(`done 0`, not a short-interval retry) and removes the finalizer in the same
invocation — the cleanup helpers swallow every get/delete error, so the
claimed fail-and-retry path cannot trigger. -/
theorem C3_fault_ignored_counterexample :
    "del-prometheus" ∈ delFaultState.getFaults ∧
    (Reconcile 0 delStack delFaultState).2.2 = RecOutcome.done 0 ∧
    (Reconcile 0 delStack delFaultState).2.1.Finalizers = [] ∧
    alookup (Reconcile 0 delStack delFaultState).1.deployments "del-grafana" = none := by
  refine ⟨?_, ?_, ?_, ?_⟩ <;> decide

/-- C3 (amended): on a stack marked for deletion, reconciliation runs cleanup
for both subsystems regardless of their enabled flags (in a fault-free store
every subsystem child — collector workload, endpoint, config artifact,
dashboard workload, endpoint — is absent afterwards, with not-found treated
as success) and then always removes the finalizer and reports success in the
same invocation; get/delete errors are swallowed by the cleanups, so no error
ever causes the protocol to be retried. -/
theorem C3_deletion_always_removes_finalizer (now : Nat) (ms : MonitorStack)
    (st : ClusterState) (h : ms.DeletionTimestamp.isSome = true) :
    (Reconcile now ms st).2.2 = RecOutcome.done 0 ∧
    finalizerName ∉ (Reconcile now ms st).2.1.Finalizers ∧
    (st.getFaults = [] →
      alookup (Reconcile now ms st).1.deployments (getPrometheusName ms) = none ∧
      alookup (Reconcile now ms st).1.services (getPrometheusServiceName ms) = none ∧
      alookup (Reconcile now ms st).1.configmaps (getPrometheusConfigMapName ms) = none ∧
      alookup (Reconcile now ms st).1.deployments (getGrafanaName ms) = none ∧
      alookup (Reconcile now ms st).1.services (getGrafanaServiceName ms) = none) := by
  have hrec : Reconcile now ms st = handleDeletion ms st := by
    unfold Reconcile
    rw [if_pos h]
  rw [hrec]
  obtain ⟨hok1, hf1, hpv1, hdO1, hdS1, hsO1, hsS1, hcO1, hcS1⟩ := cleanupProm_spec ms st
  obtain ⟨hok2, hf2, hpv2, hcm2, hdO2, hdS2, hsO2, hsS2⟩ :=
    cleanupGraf_spec ms ((cleanupPrometheusResources ms st).state)
  set S1 := (cleanupPrometheusResources ms st).state with hS1
  set S2 := (cleanupGrafanaResources ms S1).state with hS2
  unfold handleDeletion
  simp only [hok1, hok2]
  refine ⟨by trivial, ?_, ?_⟩
  · simp [List.mem_filter]
  · intro hfe
    have hfe1 : (cleanupPrometheusResources ms st).state.getFaults = [] := by rw [hf1, hfe]
    refine ⟨?_, ?_, ?_, ?_, ?_⟩
    · rw [hdO2 (getPrometheusName ms)
        (suffix_mism_ne "-prometheus" "-grafana" (by decide) ms.Name ms.Name)]
      exact hdS1 (by simp [hfe])
    · rw [hsO2 (getPrometheusServiceName ms)
        (suffix_mism_ne "-prometheus" "-grafana" (by decide) ms.Name ms.Name)]
      exact hsS1 (by simp [hfe])
    · rw [hcm2]
      exact hcS1 (by simp [hfe])
    · exact hdS2 (by rw [hfe1]; exact List.not_mem_nil _)
    · exact hsS2 (by rw [hfe1]; exact List.not_mem_nil _)

/-- Witness for C3's amended deletion-protocol behaviour, applied at a
concrete stack and fault-free store. -/
theorem C3_deletion_witness :
    (Reconcile 0 delCleanStack delCleanState).2.2 = RecOutcome.done 0 :=
  (C3_deletion_always_removes_finalizer 0 delCleanStack delCleanState (by decide)).1

/-! ### Claim C6 -/

theorem updateOverallStatus_PrometheusStatus (now : Nat) (ms : MonitorStack) :
    (updateOverallStatus now ms).Status.PrometheusStatus = ms.Status.PrometheusStatus := by
  unfold updateOverallStatus
  dsimp only
  split <;> rfl

theorem updateOverallStatus_GrafanaStatus (now : Nat) (ms : MonitorStack) :
    (updateOverallStatus now ms).Status.GrafanaStatus = ms.Status.GrafanaStatus := by
  unfold updateOverallStatus
  dsimp only
  split <;> rfl

/-- A fully converged collector reconciles to a fixpoint: when the store
already holds exactly the built config artifact, workload and endpoint (and no
storage claim is requested), and the component status matches the read-back,
`reconcilePrometheus` succeeds leaving store and stack untouched. -/
theorem reconcilePrometheus_converged (ms : MonitorStack) (st : ClusterState)
    (cm : ConfigMapObj) (d : DeploymentObj) (svc : ServiceObj)
    (hfe : st.getFaults = [])
    (hsz : ms.Spec.Prometheus.Storage.Size = "")
    (hcm : alookup st.configmaps (getPrometheusConfigMapName ms) = some cm)
    (hcmfix : { cm with Data := [("prometheus.yml", getPrometheusConfig ms)] } = cm)
    (hd : alookup st.deployments (getPrometheusName ms) = some d)
    (hdfix : { d with content := buildPrometheusDeployment ms } = d)
    (hsvc : alookup st.services (getPrometheusServiceName ms) = some svc)
    (hsvcfix : { svc with content := applyServiceUpdate svc.content (buildPrometheusService ms) } = svc)
    (hst : promStatusUpdate ms d = ms.Status.PrometheusStatus) :
    reconcilePrometheus ms st = (st, ms, none) := by
  have e1 : createPrometheusConfigMap ms st = Res.ok st := by
    unfold createPrometheusConfigMap
    dsimp only
    rw [sget_of_lookup_some st.getFaults st.configmaps _ cm (by simp [hfe]) hcm]
    dsimp only
    rw [hcmfix, aset_of_lookup_eq _ _ _ hcm]
  have hname : (buildPrometheusDeployment ms).Name = getPrometheusName ms := rfl
  have e2 : createPrometheusDeployment ms st = Res.ok st := by
    unfold createPrometheusDeployment
    dsimp only
    rw [hname, sget_of_lookup_some st.getFaults st.deployments _ d (by simp [hfe]) hd]
    dsimp only
    rw [hdfix, aset_of_lookup_eq _ _ _ hd]
  have hsname : (buildPrometheusService ms).Name = getPrometheusServiceName ms := rfl
  have e3 : createPrometheusService ms st = Res.ok st := by
    unfold createPrometheusService
    dsimp only
    rw [hsname, sget_of_lookup_some st.getFaults st.services _ svc (by simp [hfe]) hsvc]
    dsimp only
    rw [hsvcfix, aset_of_lookup_eq _ _ _ hsvc]
  unfold reconcilePrometheus
  simp only [e1, hsz]
  rw [if_neg (by simp)]
  simp only [e2, e3]
  rw [sget_of_lookup_some st.getFaults st.deployments _ d (by simp [hfe]) hd]
  dsimp only
  rw [hst]

/-- C6 counterexample: stack "acme" had its dashboard enabled, converged and
ready; reconciling after setting dashboard.enabled=false deletes the
dashboard workload and endpoint, but the dashboard ComponentStatus is *not*
left absent/not-ready: the stale ready flag and endpoint survive in the
written status. -/
theorem C6_stale_status_counterexample :
    alookup (Reconcile 5 acmeDisableStack acmeDisableState).1.deployments "acme-grafana" = none ∧
    alookup (Reconcile 5 acmeDisableStack acmeDisableState).1.services "acme-grafana" = none ∧
    (Reconcile 5 acmeDisableStack acmeDisableState).2.1.Status.GrafanaStatus.Ready = true ∧
    (Reconcile 5 acmeDisableStack acmeDisableState).2.1.Status.GrafanaStatus.Endpoint =
      "http://acme-grafana:3000" := by
  refine ⟨?_, ?_, ?_, ?_⟩ <;> decide

/-- C6 (amended): starting from a state where the dashboard was enabled and
converged, reconciling with dashboard.enabled=false deletes the dashboard
workload and network endpoint and changes nothing in the (enabled, converged)
collector subsystem's children, storage claims or ComponentStatus; the
dashboard ComponentStatus, however, is left exactly as previously recorded —
it is not reset to absent/not-ready. -/
theorem C6_disable_dashboard_frame (now : Nat) (ms : MonitorStack) (st : ClusterState)
    (cm : ConfigMapObj) (d : DeploymentObj) (svc : ServiceObj)
    (hdel : ms.DeletionTimestamp = none)
    (hfin : finalizerName ∈ ms.Finalizers)
    (hph : ms.Status.Phase ≠ "")
    (hge : ms.Spec.Grafana.Enabled = false)
    (hpe : ms.Spec.Prometheus.Enabled = true)
    (hfe : st.getFaults = [])
    (hsz : ms.Spec.Prometheus.Storage.Size = "")
    (hcm : alookup st.configmaps (getPrometheusConfigMapName ms) = some cm)
    (hcmfix : { cm with Data := [("prometheus.yml", getPrometheusConfig ms)] } = cm)
    (hd : alookup st.deployments (getPrometheusName ms) = some d)
    (hdfix : { d with content := buildPrometheusDeployment ms } = d)
    (hsvc : alookup st.services (getPrometheusServiceName ms) = some svc)
    (hsvcfix : { svc with content := applyServiceUpdate svc.content (buildPrometheusService ms) } = svc)
    (hst : promStatusUpdate ms d = ms.Status.PrometheusStatus) :
    alookup (Reconcile now ms st).1.deployments (getGrafanaName ms) = none ∧
    alookup (Reconcile now ms st).1.services (getGrafanaServiceName ms) = none ∧
    alookup (Reconcile now ms st).1.deployments (getPrometheusName ms) = some d ∧
    alookup (Reconcile now ms st).1.services (getPrometheusServiceName ms) = some svc ∧
    alookup (Reconcile now ms st).1.configmaps (getPrometheusConfigMapName ms) = some cm ∧
    (Reconcile now ms st).1.pvcs = st.pvcs ∧
    (Reconcile now ms st).2.1.Status.PrometheusStatus = ms.Status.PrometheusStatus ∧
    (Reconcile now ms st).2.1.Status.GrafanaStatus = ms.Status.GrafanaStatus ∧
    (Reconcile now ms st).2.2 = RecOutcome.done 300 := by
  obtain ⟨hok2, hf2, hpv2, hcm2, hdO2, hdS2, hsO2, hsS2⟩ := cleanupGraf_spec ms st
  set S2 := (cleanupGrafanaResources ms st).state with hS2
  have hrc := reconcilePrometheus_converged ms st cm d svc hfe hsz hcm hcmfix hd hdfix
    hsvc hsvcfix hst
  unfold Reconcile
  rw [if_neg (by simp [hdel])]
  rw [if_neg (by simp [hfin])]
  rw [if_neg hph]
  try dsimp only
  unfold reconcileComponents
  try dsimp only
  rw [if_pos hpe]
  simp only [hrc]
  try dsimp only
  rw [if_neg (by simp [hge])]
  simp only [hok2]
  try dsimp only
  refine ⟨?_, ?_, ?_, ?_, ?_, ?_, ?_, ?_, ?_⟩
  · exact hdS2 (by simp [hfe])
  · exact hsS2 (by simp [hfe])
  · rw [hdO2 (getPrometheusName ms)
      (suffix_mism_ne "-prometheus" "-grafana" (by decide) ms.Name ms.Name)]
    exact hd
  · rw [hsO2 (getPrometheusServiceName ms)
      (suffix_mism_ne "-prometheus" "-grafana" (by decide) ms.Name ms.Name)]
    exact hsvc
  · rw [hcm2]
    exact hcm
  · exact hpv2
  · exact updateOverallStatus_PrometheusStatus now ms
  · exact updateOverallStatus_GrafanaStatus now ms
  · trivial

/-- Witness for C6's amended frame property at the concrete converged stack
"conv". -/
theorem C6_disable_dashboard_frame_witness :
    alookup (Reconcile 9 convStack convState).1.deployments (getGrafanaName convStack) = none :=
  (C6_disable_dashboard_frame 9 convStack convState convCMObj convDeployObj convSvcObj
    (by decide) (by decide) (by decide) (by decide) (by decide) (by decide) (by decide)
    (by decide) (by decide) (by decide) (by decide) (by decide) (by decide) (by decide)).1

/-! ### Claim C7 -/

theorem promStatusUpdate_cases (ms : MonitorStack) (d : DeploymentObj) :
    ((promStatusUpdate ms d).Ready = true ∧
     (promStatusUpdate ms d).Endpoint =
       "http://" ++ getPrometheusServiceName ms ++ ":" ++
         toString ms.Spec.Prometheus.Service.Port) ∨
    ((promStatusUpdate ms d).Ready = false ∧
     (promStatusUpdate ms d).Endpoint = ms.Status.PrometheusStatus.Endpoint) := by
  unfold promStatusUpdate
  dsimp only
  split_ifs with hr
  · exact Or.inl ⟨rfl, rfl⟩
  · exact Or.inr ⟨rfl, rfl⟩

theorem grafStatusUpdate_cases (ms : MonitorStack) (d : DeploymentObj) :
    ((grafStatusUpdate ms d).Ready = true ∧
     (grafStatusUpdate ms d).Endpoint =
       "http://" ++ getGrafanaServiceName ms ++ ":" ++
         toString ms.Spec.Grafana.Service.Port) ∨
    ((grafStatusUpdate ms d).Ready = false ∧
     (grafStatusUpdate ms d).Endpoint = ms.Status.GrafanaStatus.Endpoint) := by
  unfold grafStatusUpdate
  dsimp only
  split_ifs with hr
  · exact Or.inl ⟨rfl, rfl⟩
  · exact Or.inr ⟨rfl, rfl⟩

/-- C7 counterexample: stack "stale" previously published its collector
endpoint while ready; the deployment now reports zero ready replicas, yet the
reconciliation that observes this leaves the stale endpoint in the status
(ready=false with a non-empty endpoint), refuting the claimed invariant. -/
theorem C7_stale_endpoint_counterexample :
    (alookup staleEndpointState.deployments "stale-prometheus").map DeploymentObj.ReadyReplicas =
      some 0 ∧
    (Reconcile 7 staleEndpointStack staleEndpointState).2.1.Status.PrometheusStatus.Ready = false ∧
    (Reconcile 7 staleEndpointStack staleEndpointState).2.1.Status.PrometheusStatus.Endpoint =
      "http://stale-prometheus:9090" := by
  refine ⟨?_, ?_, ?_⟩ <;> decide

/-- C7 (amended): a successful component reconciliation either observes ready
replicas and publishes the endpoint (ready=true with the freshly formatted
service URL), or observes none and sets ready=false while leaving the
endpoint exactly as it was — a previously published endpoint is never
cleared, so endpoint non-emptiness does not imply current readiness. -/
theorem C7_endpoint_assignment (ms : MonitorStack) (st : ClusterState) :
    (∀ st' ms', reconcilePrometheus ms st = (st', ms', none) →
      ((ms'.Status.PrometheusStatus.Ready = true ∧
        ms'.Status.PrometheusStatus.Endpoint =
          "http://" ++ getPrometheusServiceName ms ++ ":" ++
            toString ms.Spec.Prometheus.Service.Port) ∨
       (ms'.Status.PrometheusStatus.Ready = false ∧
        ms'.Status.PrometheusStatus.Endpoint = ms.Status.PrometheusStatus.Endpoint))) ∧
    (∀ st' ms', reconcileGrafana ms st = (st', ms', none) →
      ((ms'.Status.GrafanaStatus.Ready = true ∧
        ms'.Status.GrafanaStatus.Endpoint =
          "http://" ++ getGrafanaServiceName ms ++ ":" ++
            toString ms.Spec.Grafana.Service.Port) ∨
       (ms'.Status.GrafanaStatus.Ready = false ∧
        ms'.Status.GrafanaStatus.Endpoint = ms.Status.GrafanaStatus.Endpoint))) := by
  constructor
  · intro st' ms' h
    unfold reconcilePrometheus at h
    rcases hc1 : createPrometheusConfigMap ms st with s1 | ⟨s1, e⟩ <;> rw [hc1] at h <;> (try dsimp only at h)
    · rcases hc2 : (if ms.Spec.Prometheus.Storage.Size ≠ "" then createPrometheusPVC ms s1 else Res.ok s1) with s2 | ⟨s2, e⟩ <;> rw [hc2] at h <;> (try dsimp only at h)
      · rcases hc3 : createPrometheusDeployment ms s2 with s3 | ⟨s3, e⟩ <;> rw [hc3] at h <;> (try dsimp only at h)
        · rcases hc4 : createPrometheusService ms s3 with s4 | ⟨s4, e⟩ <;> rw [hc4] at h <;> (try dsimp only at h)
          · rcases hg : sget s4.getFaults s4.deployments (getPrometheusName ms) with dd | _ | _ <;> rw [hg] at h <;> (try dsimp only at h)
            · injection h with h1 h2
              injection h2 with h2a h2b
              subst h2a
              exact promStatusUpdate_cases ms dd
            · injection h with h1 h2
              injection h2 with h2a h2b
              exact Option.noConfusion h2b
            · injection h with h1 h2
              injection h2 with h2a h2b
              exact Option.noConfusion h2b
          · injection h with h1 h2
            injection h2 with h2a h2b
            exact Option.noConfusion h2b
        · injection h with h1 h2
          injection h2 with h2a h2b
          exact Option.noConfusion h2b
      · injection h with h1 h2
        injection h2 with h2a h2b
        exact Option.noConfusion h2b
    · injection h with h1 h2
      injection h2 with h2a h2b
      exact Option.noConfusion h2b
  · intro st' ms' h
    unfold reconcileGrafana at h
    rcases hc1 : (if ms.Spec.Grafana.Datasources ≠ [] then createGrafanaDatasourcesConfigMap ms st else Res.ok st) with s1 | ⟨s1, e⟩ <;> rw [hc1] at h <;> (try dsimp only at h)
    · rcases hc2 : createGrafanaDeployment ms s1 with s2 | ⟨s2, e⟩ <;> rw [hc2] at h <;> (try dsimp only at h)
      · rcases hc3 : createGrafanaService ms s2 with s3 | ⟨s3, e⟩ <;> rw [hc3] at h <;> (try dsimp only at h)
        · rcases hg : sget s3.getFaults s3.deployments (getGrafanaName ms) with dd | _ | _ <;> rw [hg] at h <;> (try dsimp only at h)
          · injection h with h1 h2
            injection h2 with h2a h2b
            subst h2a
            exact grafStatusUpdate_cases ms dd
          · injection h with h1 h2
            injection h2 with h2a h2b
            exact Option.noConfusion h2b
          · injection h with h1 h2
            injection h2 with h2a h2b
            exact Option.noConfusion h2b
        · injection h with h1 h2
          injection h2 with h2a h2b
          exact Option.noConfusion h2b
      · injection h with h1 h2
        injection h2 with h2a h2b
        exact Option.noConfusion h2b
    · injection h with h1 h2
      injection h2 with h2a h2b
      exact Option.noConfusion h2b

/-- Witness for C7's amended endpoint behaviour at the concrete "stale"
scenario. -/
theorem C7_endpoint_assignment_witness :
    (((reconcilePrometheus staleEndpointStack staleEndpointState).2.1.Status.PrometheusStatus.Ready = true ∧
      (reconcilePrometheus staleEndpointStack staleEndpointState).2.1.Status.PrometheusStatus.Endpoint =
        "http://" ++ getPrometheusServiceName staleEndpointStack ++ ":" ++
          toString staleEndpointStack.Spec.Prometheus.Service.Port) ∨
     ((reconcilePrometheus staleEndpointStack staleEndpointState).2.1.Status.PrometheusStatus.Ready = false ∧
      (reconcilePrometheus staleEndpointStack staleEndpointState).2.1.Status.PrometheusStatus.Endpoint =
        staleEndpointStack.Status.PrometheusStatus.Endpoint)) :=
  (C7_endpoint_assignment staleEndpointStack staleEndpointState).1
    (reconcilePrometheus staleEndpointStack staleEndpointState).1
    (reconcilePrometheus staleEndpointStack staleEndpointState).2.1 (by rfl)

/-! ### Claim C10 -/

theorem createPrometheusConfigMap_pvcs (ms : MonitorStack) (st : ClusterState) :
    (createPrometheusConfigMap ms st).state.pvcs = st.pvcs := by
  unfold createPrometheusConfigMap Res.state
  dsimp only
  rcases h : sget st.getFaults st.configmaps (getPrometheusConfigMapName ms) with a | _ | _ <;>
    simp only [h]

theorem createPrometheusDeployment_pvcs (ms : MonitorStack) (st : ClusterState) :
    (createPrometheusDeployment ms st).state.pvcs = st.pvcs := by
  unfold createPrometheusDeployment Res.state
  dsimp only
  rcases h : sget st.getFaults st.deployments (buildPrometheusDeployment ms).Name
      with a | _ | _ <;> simp only [h]

theorem createPrometheusService_pvcs (ms : MonitorStack) (st : ClusterState) :
    (createPrometheusService ms st).state.pvcs = st.pvcs := by
  unfold createPrometheusService Res.state
  dsimp only
  rcases h : sget st.getFaults st.services (buildPrometheusService ms).Name
      with a | _ | _ <;> simp only [h]

theorem createGrafanaDatasourcesConfigMap_pvcs (ms : MonitorStack) (st : ClusterState) :
    (createGrafanaDatasourcesConfigMap ms st).state.pvcs = st.pvcs := by
  unfold createGrafanaDatasourcesConfigMap Res.state
  dsimp only
  rcases h : sget st.getFaults st.configmaps (getGrafanaDatasourcesConfigMapName ms)
      with a | _ | _ <;> simp only [h]

theorem createGrafanaDeployment_pvcs (ms : MonitorStack) (st : ClusterState) :
    (createGrafanaDeployment ms st).state.pvcs = st.pvcs := by
  unfold createGrafanaDeployment Res.state
  dsimp only
  rcases h : sget st.getFaults st.deployments (buildGrafanaDeployment ms).Name
      with a | _ | _ <;> simp only [h]

theorem createGrafanaService_pvcs (ms : MonitorStack) (st : ClusterState) :
    (createGrafanaService ms st).state.pvcs = st.pvcs := by
  unfold createGrafanaService Res.state
  dsimp only
  rcases h : sget st.getFaults st.services (buildGrafanaService ms).Name
      with a | _ | _ <;> simp only [h]

/-- The storage-claim step only ever adds the claim when it is absent, so
every existing claim binding survives with its value. -/
theorem createPrometheusPVC_pvcs_preserved (ms : MonitorStack) (st : ClusterState)
    (n : String) (v : PVCObj) (h : alookup st.pvcs n = some v) :
    alookup (createPrometheusPVC ms st).state.pvcs n = some v := by
  unfold createPrometheusPVC Res.state
  dsimp only
  rcases hg : sget st.getFaults st.pvcs (getPrometheusPVCName ms) with a | _ | _ <;> simp only [hg]
  · exact h
  · have hnone := sget_notFound_lookup _ _ _ hg
    have hne : n ≠ getPrometheusPVCName ms := by
      intro he
      rw [he, hnone] at h
      exact Option.noConfusion h
    rw [alookup_ainsert_ne _ _ _ _ hne]
    exact h
  · exact h

theorem reconcilePrometheus_pvcs_preserved (ms : MonitorStack) (st : ClusterState)
    (n : String) (v : PVCObj) (h : alookup st.pvcs n = some v) :
    alookup (reconcilePrometheus ms st).1.pvcs n = some v := by
  unfold reconcilePrometheus
  have p1 := createPrometheusConfigMap_pvcs ms st
  rcases hc1 : createPrometheusConfigMap ms st with s1 | ⟨s1, e⟩ <;>
    rw [hc1] at p1 <;> simp only [Res.state] at p1 <;> simp only [hc1]
  · have h1 : alookup s1.pvcs n = some v := by rw [p1]; exact h
    rcases hc2 : (if ms.Spec.Prometheus.Storage.Size ≠ "" then createPrometheusPVC ms s1 else Res.ok s1) with s2 | ⟨s2, e⟩ <;> simp only [hc2]
    · have h2 : alookup s2.pvcs n = some v := by
        by_cases hsz : ms.Spec.Prometheus.Storage.Size ≠ ""
        · rw [if_pos hsz] at hc2
          have hp := createPrometheusPVC_pvcs_preserved ms s1 n v h1
          rw [hc2] at hp
          simpa [Res.state] using hp
        · rw [if_neg hsz] at hc2
          injection hc2 with he
          rw [← he]
          exact h1
      have p3 := createPrometheusDeployment_pvcs ms s2
      rcases hc3 : createPrometheusDeployment ms s2 with s3 | ⟨s3, e⟩ <;>
        rw [hc3] at p3 <;> simp only [Res.state] at p3 <;> simp only [hc3]
      · have h3 : alookup s3.pvcs n = some v := by rw [p3]; exact h2
        have p4 := createPrometheusService_pvcs ms s3
        rcases hc4 : createPrometheusService ms s3 with s4 | ⟨s4, e⟩ <;>
          rw [hc4] at p4 <;> simp only [Res.state] at p4 <;> simp only [hc4]
        · have h4 : alookup s4.pvcs n = some v := by rw [p4]; exact h3
          rcases hg : sget s4.getFaults s4.deployments (getPrometheusName ms) with dd | _ | _ <;>
            simp only [hg] <;> exact h4
        · rw [p4]
          exact h3
      · rw [p3]
        exact h2
    · have h2 : alookup s2.pvcs n = some v := by
        by_cases hsz : ms.Spec.Prometheus.Storage.Size ≠ ""
        · rw [if_pos hsz] at hc2
          have hp := createPrometheusPVC_pvcs_preserved ms s1 n v h1
          rw [hc2] at hp
          simpa [Res.state] using hp
        · rw [if_neg hsz] at hc2
          exact Res.noConfusion hc2
      exact h2
  · rw [p1]
    exact h

theorem reconcileGrafana_pvcs (ms : MonitorStack) (st : ClusterState) :
    (reconcileGrafana ms st).1.pvcs = st.pvcs := by
  unfold reconcileGrafana
  rcases hc1 : (if ms.Spec.Grafana.Datasources ≠ [] then createGrafanaDatasourcesConfigMap ms st else Res.ok st) with s1 | ⟨s1, e⟩ <;> simp only [hc1]
  · have p1 : s1.pvcs = st.pvcs := by
      by_cases hds : ms.Spec.Grafana.Datasources ≠ []
      · rw [if_pos hds] at hc1
        have hp := createGrafanaDatasourcesConfigMap_pvcs ms st
        rw [hc1] at hp
        simpa [Res.state] using hp
      · rw [if_neg hds] at hc1
        injection hc1 with he
        rw [← he]
    have p2 := createGrafanaDeployment_pvcs ms s1
    rcases hc2 : createGrafanaDeployment ms s1 with s2 | ⟨s2, e⟩ <;>
      rw [hc2] at p2 <;> simp only [Res.state] at p2 <;> simp only [hc2]
    · have p3 := createGrafanaService_pvcs ms s2
      rcases hc3 : createGrafanaService ms s2 with s3 | ⟨s3, e⟩ <;>
        rw [hc3] at p3 <;> simp only [Res.state] at p3 <;> simp only [hc3]
      · rcases hg : sget s3.getFaults s3.deployments (getGrafanaName ms) with dd | _ | _ <;>
          simp only [hg] <;> rw [p3, p2, p1]
      · rw [p3, p2, p1]
    · rw [p2, p1]
  · have p1 : s1.pvcs = st.pvcs := by
      by_cases hds : ms.Spec.Grafana.Datasources ≠ []
      · rw [if_pos hds] at hc1
        have hp := createGrafanaDatasourcesConfigMap_pvcs ms st
        rw [hc1] at hp
        simpa [Res.state] using hp
      · rw [if_neg hds] at hc1
        exact Res.noConfusion hc1
    exact p1

theorem handleDeletion_pvcs (ms : MonitorStack) (st : ClusterState) :
    (handleDeletion ms st).1.pvcs = st.pvcs := by
  obtain ⟨hok1, _, hpv1, _⟩ := cleanupProm_spec ms st
  obtain ⟨hok2, _, hpv2, _⟩ := cleanupGraf_spec ms ((cleanupPrometheusResources ms st).state)
  set S1 := (cleanupPrometheusResources ms st).state with hS1
  set S2 := (cleanupGrafanaResources ms S1).state with hS2
  unfold handleDeletion
  simp only [hok1, hok2]
  try dsimp only
  rw [hpv2, hpv1]

/-- C10: no operation of the engine ever deletes the durable-storage claim:
both disable-cleanups and the deletion protocol leave the claim table exactly
as it was, and a full reconciliation invocation preserves every existing
claim binding unchanged (it can at most create the absent claim). -/
theorem reconcileComponents_pvcs_preserved (now : Nat) (m : MonitorStack) (st : ClusterState)
    (n : String) (v : PVCObj) (h : alookup st.pvcs n = some v) :
    alookup (reconcileComponents now m st).1.pvcs n = some v := by
  unfold reconcileComponents
  rcases hs5 : (if m.Spec.Prometheus.Enabled then reconcilePrometheus m st else match cleanupPrometheusResources m st with | Res.ok st1 => (st1, m, none) | Res.fail st1 _ => (st1, m, none)) with ⟨st1, ms1, err1⟩
  have hl1 : alookup st1.pvcs n = some v := by
    by_cases hpe : m.Spec.Prometheus.Enabled = true
    · rw [if_pos hpe] at hs5
      have hp := reconcilePrometheus_pvcs_preserved m st n v h
      rw [hs5] at hp
      exact hp
    · rw [if_neg hpe] at hs5
      obtain ⟨hok, _, hpv, _⟩ := cleanupProm_spec m st
      rw [hok] at hs5
      injection hs5 with h1 h2
      rw [← h1, hpv]
      exact h
  rcases err1 with _ | e
  · dsimp only
    rcases hs6 : (if ms1.Spec.Grafana.Enabled then reconcileGrafana ms1 st1 else match cleanupGrafanaResources ms1 st1 with | Res.ok st2 => (st2, ms1, none) | Res.fail st2 _ => (st2, ms1, none)) with ⟨st2, ms2, err2⟩
    have hl2 : alookup st2.pvcs n = some v := by
      by_cases hge : ms1.Spec.Grafana.Enabled = true
      · rw [if_pos hge] at hs6
        have hq := reconcileGrafana_pvcs ms1 st1
        rw [hs6] at hq
        dsimp only at hq
        rw [hq]
        exact hl1
      · rw [if_neg hge] at hs6
        obtain ⟨hok, _, hpv, _⟩ := cleanupGraf_spec ms1 st1
        rw [hok] at hs6
        injection hs6 with h1 h2
        rw [← h1, hpv]
        exact hl1
    rcases err2 with _ | e <;> dsimp only <;> exact hl2
  · dsimp only
    exact hl1

/-- C10: no operation of the engine ever deletes the durable-storage claim:
both disable-cleanups and the deletion protocol leave the claim table exactly
as it was, and a full reconciliation invocation preserves every existing
claim binding unchanged (it can at most create the absent claim). -/
theorem C10_pvc_never_deleted (now : Nat) (ms : MonitorStack) (st : ClusterState) :
    (cleanupPrometheusResources ms st).state.pvcs = st.pvcs ∧
    (cleanupGrafanaResources ms st).state.pvcs = st.pvcs ∧
    (handleDeletion ms st).1.pvcs = st.pvcs ∧
    (∀ n v, alookup st.pvcs n = some v →
      alookup (Reconcile now ms st).1.pvcs n = some v) := by
  refine ⟨(cleanupProm_spec ms st).2.2.1, (cleanupGraf_spec ms st).2.2.1,
    handleDeletion_pvcs ms st, ?_⟩
  intro n v h
  unfold Reconcile
  by_cases hdel : ms.DeletionTimestamp.isSome = true
  · rw [if_pos hdel, handleDeletion_pvcs ms st]
    exact h
  · rw [if_neg hdel]
    by_cases hfin : finalizerName ∉ ms.Finalizers
    · rw [if_pos hfin]
      exact h
    · rw [if_neg hfin]
      exact reconcileComponents_pvcs_preserved now _ st n v h

/-- Witness for C10: a pre-existing durable-storage claim survives a full
reconciliation (here one that runs both disable-cleanups) unchanged. -/
theorem C10_pvc_never_deleted_witness :
    alookup (Reconcile 0 demoDisabledStack pvcExistingState).1.pvcs "pvc-prometheus-data" =
      some pvcExistingObj :=
  (C10_pvc_never_deleted 0 demoDisabledStack pvcExistingState).2.2.2
    "pvc-prometheus-data" pvcExistingObj (by decide)

end MonitorOperator
